import Mathlib

/-
Verification of the gumball emulator core against its specification.

This file shallowly embeds the Rust sources (src/mmu.rs, src/input.rs,
src/interrupts.rs, src/cpu.rs, src/ppu.rs) into Lean. Machine integers are
modelled as `Nat` with explicit wrapping (`% 256`, `% 65536`, ...) at the
points where the Rust types (u8, u16, usize) wrap; byte arrays are modelled
as total functions `Nat → Nat` holding byte values, with in-bounds access
assumed where the Rust code would otherwise panic. Fallible dispatch
(unrecognized opcodes, which panic in the source) is modelled with `Option`.
Rust integer arithmetic is modelled with release-mode (two's-complement
wrapping) semantics.
-/

namespace Gumball

/-- Modelled from the spec: the module `registers` of the repository is not
available in the sources; its register-address constants are reconstructed
from the canonical memory map the specification describes (section 6 lists
LCDC, STAT, SCY, SCX, LY, LYC, WY, WX, BGP, OBP0, OBP1, DMA, DIV; the boot
snapshot scenario pins LY to 0xFF44 and the DIV invariant pins DIV to
0xFF04). -/
def LCDC : Nat := 0xFF40

/-- Modelled from the spec: STAT register address. -/
def STAT : Nat := 0xFF41

/-- Modelled from the spec: SCY register address. -/
def SCY : Nat := 0xFF42

/-- Modelled from the spec: SCX register address. -/
def SCX : Nat := 0xFF43

/-- Modelled from the spec: LY register address. -/
def LY : Nat := 0xFF44

/-- Modelled from the spec: LYC register address. -/
def LYC : Nat := 0xFF45

/-- Modelled from the spec: WY register address. -/
def WY : Nat := 0xFF4A

/-- Modelled from the spec: WX register address. -/
def WX : Nat := 0xFF4B

/-- Modelled from the spec: BGP register address. -/
def BGP : Nat := 0xFF47

/-- Modelled from the spec: OBP0 register address. -/
def OBP0 : Nat := 0xFF48

/-- Modelled from the spec: OBP1 register address. -/
def OBP1 : Nat := 0xFF49

/-- `usize` subtraction with release-mode wrapping (64-bit). -/
def usub (x y : Nat) : Nat :=
  (x + (18446744073709551616 - y % 18446744073709551616)) % 18446744073709551616

/-- Joypad state, from src/input.rs (`struct Input`). -/
structure Input where
  select_button_keys : Bool
  select_direction_keys : Bool
  a : Bool
  b : Bool
  start : Bool
  select : Bool
  up : Bool
  down : Bool
  left : Bool
  right : Bool
deriving DecidableEq

/-- `Input::read_ff00` from src/input.rs. The running `result` starts at
0xCF; the u8 masks `!(1 << n)` are written as their byte values
(0xDF, 0xEF, 0xF7, 0xFB, 0xFD, 0xFE). -/
def Input.read_ff00 (i : Input) : Nat :=
  let result := 0xCF
  let result :=
    if i.select_button_keys then
      let r := result &&& 0xDF
      let r := if i.start then r &&& 0xF7 else r
      let r := if i.select then r &&& 0xFB else r
      let r := if i.b then r &&& 0xFD else r
      if i.a then r &&& 0xFE else r
    else result
  if i.select_direction_keys then
    let r := result &&& 0xEF
    let r := if i.down then r &&& 0xF7 else r
    let r := if i.up then r &&& 0xFB else r
    let r := if i.left then r &&& 0xFD else r
    if i.right then r &&& 0xFE else r
  else result

/-- `Input::write_ff00` from src/input.rs. -/
def Input.write_ff00 (i : Input) (value : Nat) : Input :=
  { i with
    select_button_keys := value &&& (1 <<< 5) == 0
    select_direction_keys := value &&& (1 <<< 4) == 0 }

/-- The `MBC` enum from src/mmu.rs. -/
inductive MBC where
  | None
  | MBC1
  | MBC2
  | MBC3
  | MBC5
deriving DecidableEq

/-- The `Mmu` struct from src/mmu.rs. `memory` is the 64 KiB view,
`total_rom`/`total_ram` the detached cartridge images, modelled as total
functions over byte addresses. -/
structure Mmu where
  memory : Nat → Nat
  total_rom : Nat → Nat
  total_ram : Nat → Nat
  ram_bank : Nat
  mbc : MBC
  input : Input
  has_external_ram : Bool
  enable_external_ram : Bool

/-- Pointwise store into a byte array modelled as a function. -/
def store (f : Nat → Nat) (a v : Nat) : Nat → Nat :=
  fun x => if x = a then v else f x

/-- `Mmu::switch_rom_bank` from src/mmu.rs. -/
def Mmu.switch_rom_bank (m : Mmu) (bank : Nat) : Mmu :=
  if m.mbc = MBC.None then m
  else
    let bank := bank &&& 0x1F
    let bank := if bank = 0 then 1 else bank
    let offset := bank * 0x4000
    { m with
      memory := fun a =>
        if 0x4000 ≤ a ∧ a < 0x8000 then m.total_rom (offset + (a - 0x4000))
        else m.memory a }

/-- `Mmu::switch_ram_bank` from src/mmu.rs: the outgoing bank is flushed to
`total_ram` before the incoming bank is paged into 0xA000–0xBFFF. -/
def Mmu.switch_ram_bank (m : Mmu) (bank : Nat) : Mmu :=
  if m.mbc = MBC.None then m
  else
    let bank := bank &&& 0x03
    let bank := if bank = 0 then 1 else bank
    let offset := bank * 0x2000
    let old_offset := m.ram_bank * 0x2000
    let flushed : Nat → Nat := fun i =>
      if old_offset ≤ i ∧ i < old_offset + 0x2000 then m.memory (0xA000 + (i - old_offset))
      else m.total_ram i
    { m with
      total_ram := flushed
      memory := fun a =>
        if 0xA000 ≤ a ∧ a < 0xC000 then flushed (offset + (a - 0xA000))
        else m.memory a
      ram_bank := bank }

/-- `Mmu::dma_transfer` from src/mmu.rs: copy 160 bytes from value·0x100
into OAM. -/
def Mmu.dma_transfer (m : Mmu) (address : Nat) : Mmu :=
  let src := address * 0x100
  { m with
    memory := fun a =>
      if 0xFE00 ≤ a ∧ a < 0xFEA0 then m.memory (src + (a - 0xFE00))
      else m.memory a }

/-- `Mmu::set` from src/mmu.rs, with the match arms in source order. -/
def Mmu.set (m : Mmu) (address : Nat) (value : Nat) : Mmu :=
  if address ≤ 0x1FFF then
    { m with enable_external_ram := value == 0x0A }
  else if address ≤ 0x3FFF then
    m.switch_rom_bank value
  else if address ≤ 0x5FFF then
    m.switch_ram_bank value
  else if 0xA000 ≤ address ∧ address ≤ 0xBFFF then
    if m.enable_external_ram then { m with memory := store m.memory address value } else m
  else if address = 0xFF00 then
    { m with input := m.input.write_ff00 value }
  else if address = 0xFF04 then
    { m with memory := store m.memory address 0 }
  else if address = 0xFF46 then
    m.dma_transfer value
  else
    { m with memory := store m.memory address value }

/-- `Mmu::get` from src/mmu.rs. -/
def Mmu.get (m : Mmu) (address : Nat) : Nat :=
  if 0xA000 ≤ address ∧ address ≤ 0xBFFF then
    if m.enable_external_ram then m.memory address else 0xFF
  else if address = 0xFF00 then
    m.input.read_ff00
  else
    m.memory address

/-- The `Interrupt` enum from src/interrupts.rs. -/
inductive Interrupt where
  | VBlank
  | LcdStat
  | Timer
  | Serial
  | Joypad
deriving DecidableEq

/-- `Interrupt::priority` from src/interrupts.rs. -/
def Interrupt.priority : Interrupt → Nat
  | .VBlank => 0
  | .LcdStat => 1
  | .Timer => 2
  | .Serial => 3
  | .Joypad => 4

/-- `Interrupt::address` from src/interrupts.rs: the vector table. -/
def Interrupt.address : Interrupt → Nat
  | .VBlank => 0x40
  | .LcdStat => 0x48
  | .Timer => 0x50
  | .Serial => 0x58
  | .Joypad => 0x60

/-- `Interrupt::enabled` from src/interrupts.rs: the line is set in both
IE (0xFFFF) and IF (0xFF0F). -/
def Interrupt.enabled (i : Interrupt) (mem : Mmu) : Bool :=
  (mem.get 0xFFFF &&& (1 <<< i.priority) != 0) &&
  (mem.get 0xFF0F &&& (1 <<< i.priority) != 0)

/-- `Interrupt::clear` from src/interrupts.rs: clear the line's IF bit.
The u8 mask `!(1 << p)` is written `0xFF ^^^ (1 <<< p)`. -/
def Interrupt.clear (i : Interrupt) (mem : Mmu) : Mmu :=
  mem.set 0xFF0F (mem.get 0xFF0F &&& (0xFF ^^^ (1 <<< i.priority)))

/-- `Interrupt::trigger` from src/interrupts.rs: raise the line's IF bit. -/
def Interrupt.trigger (i : Interrupt) (mem : Mmu) : Mmu :=
  mem.set 0xFF0F (mem.get 0xFF0F ||| (1 <<< i.priority))

/-- `get_interrupts` from src/interrupts.rs: the pending lines of IF in
push order VBlank, LcdStat, Timer, Serial, Joypad. -/
def get_interrupts (mem : Mmu) : List Interrupt :=
  let byte := mem.get 0xFF0F
  (if byte &&& 0b00001 ≠ 0 then [Interrupt.VBlank] else []) ++
  (if byte &&& 0b00010 ≠ 0 then [Interrupt.LcdStat] else []) ++
  (if byte &&& 0b00100 ≠ 0 then [Interrupt.Timer] else []) ++
  (if byte &&& 0b01000 ≠ 0 then [Interrupt.Serial] else []) ++
  (if byte &&& 0b10000 ≠ 0 then [Interrupt.Joypad] else [])

/-- `struct Flags` from src/cpu.rs. -/
structure Flags where
  z : Bool
  n : Bool
  h : Bool
  c : Bool
deriving DecidableEq

/-- `struct Registers` from src/cpu.rs; the fields hold byte values. -/
structure Registers where
  a : Nat
  b : Nat
  c : Nat
  d : Nat
  e : Nat
  h : Nat
  l : Nat
deriving DecidableEq

/-- `struct Cpu` from src/cpu.rs. -/
structure Cpu where
  registers : Registers
  flags : Flags
  pc : Nat
  sp : Nat
  ime : Bool
  ime_delay : Bool
  halted : Bool
  stopped : Bool
  clock_cycles : Nat
deriving DecidableEq

/-- `add_8_8` from src/cpu.rs: 16-bit add of `val` onto the pair `x:y`,
returning high byte, low byte, carry flag and half-carry flag. -/
def add_8_8 (x y val : Nat) : Nat × Nat × Bool × Bool :=
  let a := (x <<< 8) ||| y
  let result := (a + val) % 65536
  (result >>> 8, result &&& 0xFF, a + val ≥ 65536, (a &&& 0xFFF) + (val &&& 0xFFF) > 0xFFF)

/-- `inc_8_8` from src/cpu.rs. -/
def inc_8_8 (x y : Nat) : Nat × Nat :=
  let b := (y + 1) % 256
  let a := if y + 1 ≥ 256 then (x + 1) % 256 else x
  (a, b)

/-- `dec_8_8` from src/cpu.rs (u8 wrapping subtraction of 1). -/
def dec_8_8 (x y : Nat) : Nat × Nat :=
  let b := (y + 255) % 256
  let a := if y = 0 then (x + 255) % 256 else x
  (a, b)

/-- `flag_to_u8` from src/cpu.rs. -/
def flag_to_u8 (x : Bool) : Nat :=
  if x then 1 else 0

/-- Reinterpret a byte as a signed `i8` (`as i8` in src/cpu.rs). -/
def toI8 (b : Nat) : Int :=
  if 128 ≤ b then (b : Int) - 256 else (b : Int)

/-- `usize::wrapping_add_signed`, used for relative jumps. -/
def usizeAddSigned (x : Nat) (d : Int) : Nat :=
  (((x : Int) + d) % (18446744073709551616 : Int)).toNat

/-- `u16::from_le_bytes([lo, hi])`. -/
def u16_from_le (lo hi : Nat) : Nat :=
  lo ||| (hi <<< 8)

def Registers.get_bc (r : Registers) : Nat := (r.b <<< 8) ||| r.c

def Registers.set_bc (r : Registers) (val : Nat) : Registers :=
  { r with b := (val >>> 8) % 256, c := val &&& 0xFF }

def Registers.get_de (r : Registers) : Nat := (r.d <<< 8) ||| r.e

def Registers.set_de (r : Registers) (val : Nat) : Registers :=
  { r with d := (val >>> 8) % 256, e := val &&& 0xFF }

def Registers.get_hl (r : Registers) : Nat := (r.h <<< 8) ||| r.l

def Registers.set_hl (r : Registers) (val : Nat) : Registers :=
  { r with h := (val >>> 8) % 256, l := val &&& 0xFF }

/-- `Registers::inc_hl` from src/cpu.rs. -/
def Registers.inc_hl (r : Registers) : Registers :=
  let l := (r.l + 1) % 256
  let h := if r.l + 1 ≥ 256 then (r.h + 1) % 256 else r.h
  { r with h := h, l := l }

/-- `Registers::dec_hl` from src/cpu.rs. -/
def Registers.dec_hl (r : Registers) : Registers :=
  let l := (r.l + 255) % 256
  let h := if r.l = 0 then (r.h + 255) % 256 else r.h
  { r with h := h, l := l }

/-- The `R8` operand code enum from src/cpu.rs. -/
inductive R8 where
  | B
  | C
  | D
  | E
  | H
  | L
  | HLMem
  | A
deriving DecidableEq

/-- `r8` from src/cpu.rs. Call sites always mask the code to three bits, so
the panicking default arm is unreachable; it is folded into the final case. -/
def r8 (code : Nat) : R8 :=
  match code with
  | 0 => R8.B
  | 1 => R8.C
  | 2 => R8.D
  | 3 => R8.E
  | 4 => R8.H
  | 5 => R8.L
  | 6 => R8.HLMem
  | _ => R8.A

inductive R16 where
  | BC
  | DE
  | HL
  | SP
deriving DecidableEq

/-- `r16` from src/cpu.rs (two-bit code; panicking arm unreachable). -/
def r16 (opcode : Nat) : R16 :=
  match opcode with
  | 0 => R16.BC
  | 1 => R16.DE
  | 2 => R16.HL
  | _ => R16.SP

inductive R16Mem where
  | BC
  | DE
  | HLI
  | HLD
deriving DecidableEq

/-- `r16_mem` from src/cpu.rs (two-bit code; panicking arm unreachable). -/
def r16_mem (x : Nat) : R16Mem :=
  match x with
  | 0 => R16Mem.BC
  | 1 => R16Mem.DE
  | 2 => R16Mem.HLI
  | _ => R16Mem.HLD

inductive Cond where
  | NZ
  | Z
  | NC
  | C
deriving DecidableEq

/-- `cond` from src/cpu.rs (two-bit code; panicking arm unreachable). -/
def cond (code : Nat) : Cond :=
  match code with
  | 0 => Cond.NZ
  | 1 => Cond.Z
  | 2 => Cond.NC
  | _ => Cond.C

inductive R16Stk where
  | BC
  | DE
  | HL
  | AF
deriving DecidableEq

/-- `r16stk` from src/cpu.rs (two-bit code; panicking arm unreachable). -/
def r16stk (code : Nat) : R16Stk :=
  match code with
  | 0 => R16Stk.BC
  | 1 => R16Stk.DE
  | 2 => R16Stk.HL
  | _ => R16Stk.AF

/-- `ld_r16` from src/cpu.rs. -/
def ld_r16 (pair : R16) (cpu : Cpu) (val : Nat) : Cpu :=
  match pair with
  | R16.BC => { cpu with registers := cpu.registers.set_bc val }
  | R16.DE => { cpu with registers := cpu.registers.set_de val }
  | R16.HL => { cpu with registers := cpu.registers.set_hl val }
  | R16.SP => { cpu with sp := val }

/-- `ld_r16_mem_a` from src/cpu.rs. -/
def ld_r16_mem_a (pair : R16Mem) (cpu : Cpu) (mem : Mmu) : Cpu × Mmu :=
  match pair with
  | R16Mem.BC => (cpu, mem.set cpu.registers.get_bc cpu.registers.a)
  | R16Mem.DE => (cpu, mem.set cpu.registers.get_de cpu.registers.a)
  | R16Mem.HLD =>
      ({ cpu with registers := cpu.registers.dec_hl },
       mem.set cpu.registers.get_hl cpu.registers.a)
  | R16Mem.HLI =>
      ({ cpu with registers := cpu.registers.inc_hl },
       mem.set cpu.registers.get_hl cpu.registers.a)

/-- `ld_a_r16_mem` from src/cpu.rs. -/
def ld_a_r16_mem (pair : R16Mem) (cpu : Cpu) (mem : Mmu) : Cpu × Mmu :=
  match pair with
  | R16Mem.BC =>
      ({ cpu with registers := { cpu.registers with a := mem.get cpu.registers.get_bc } }, mem)
  | R16Mem.DE =>
      ({ cpu with registers := { cpu.registers with a := mem.get cpu.registers.get_de } }, mem)
  | R16Mem.HLD =>
      ({ cpu with registers :=
          { cpu.registers with a := mem.get cpu.registers.get_hl }.dec_hl }, mem)
  | R16Mem.HLI =>
      ({ cpu with registers :=
          { cpu.registers with a := mem.get cpu.registers.get_hl }.inc_hl }, mem)

/-- `ld_imm16_sp` from src/cpu.rs; the second write wraps the u16 address. -/
def ld_imm16_sp (cpu : Cpu) (mem : Mmu) (addr : Nat) : Mmu :=
  let mem := mem.set addr (cpu.sp &&& 0xFF)
  mem.set ((addr + 1) % 65536) ((cpu.sp >>> 8) &&& 0xFF)

/-- `inc_r16` from src/cpu.rs. -/
def inc_r16 (cpu : Cpu) (opcode : Nat) : Cpu :=
  match r16 ((opcode &&& 0b00110000) >>> 4) with
  | R16.BC =>
      let p := inc_8_8 cpu.registers.b cpu.registers.c
      { cpu with registers := { cpu.registers with b := p.1, c := p.2 } }
  | R16.DE =>
      let p := inc_8_8 cpu.registers.d cpu.registers.e
      { cpu with registers := { cpu.registers with d := p.1, e := p.2 } }
  | R16.HL =>
      let p := inc_8_8 cpu.registers.h cpu.registers.l
      { cpu with registers := { cpu.registers with h := p.1, l := p.2 } }
  | R16.SP => { cpu with sp := cpu.sp + 1 }

/-- `dec_r16` from src/cpu.rs. -/
def dec_r16 (cpu : Cpu) (opcode : Nat) : Cpu :=
  match r16 ((opcode &&& 0b00110000) >>> 4) with
  | R16.BC =>
      let p := dec_8_8 cpu.registers.b cpu.registers.c
      { cpu with registers := { cpu.registers with b := p.1, c := p.2 } }
  | R16.DE =>
      let p := dec_8_8 cpu.registers.d cpu.registers.e
      { cpu with registers := { cpu.registers with d := p.1, e := p.2 } }
  | R16.HL =>
      let p := dec_8_8 cpu.registers.h cpu.registers.l
      { cpu with registers := { cpu.registers with h := p.1, l := p.2 } }
  | R16.SP => { cpu with sp := usub cpu.sp 1 }

/-- `inc_r8` from src/cpu.rs. The `[HL]` case reads the raw backing byte
(the `Index` impl) and writes through `IndexMut`, whose transient zeroing of
0xFF04 is immediately overwritten by the stored result. -/
def inc_r8 (cpu : Cpu) (mem : Mmu) (opcode : Nat) : Cpu × Mmu × Nat :=
  let r := cpu.registers
  let arm : Nat × Cpu × Mmu × Nat :=
    match r8 ((opcode &&& 0b00111000) >>> 3) with
    | R8.B =>
        let result := (r.b + 1) % 256
        (result, { cpu with registers := { r with b := result } }, mem, 1)
    | R8.C =>
        let result := (r.c + 1) % 256
        (result, { cpu with registers := { r with c := result } }, mem, 1)
    | R8.D =>
        let result := (r.d + 1) % 256
        (result, { cpu with registers := { r with d := result } }, mem, 1)
    | R8.E =>
        let result := (r.e + 1) % 256
        (result, { cpu with registers := { r with e := result } }, mem, 1)
    | R8.H =>
        let result := (r.h + 1) % 256
        (result, { cpu with registers := { r with h := result } }, mem, 1)
    | R8.L =>
        let result := (r.l + 1) % 256
        (result, { cpu with registers := { r with l := result } }, mem, 1)
    | R8.HLMem =>
        let result := (mem.memory r.get_hl + 1) % 256
        (result, cpu, { mem with memory := store mem.memory r.get_hl result }, 3)
    | R8.A =>
        let result := (r.a + 1) % 256
        (result, { cpu with registers := { r with a := result } }, mem, 1)
  let result := arm.1
  let cpu := arm.2.1
  ({ cpu with flags :=
      { cpu.flags with z := result == 0, n := false, h := (result &&& 0xF) == 0 } },
   arm.2.2.1, arm.2.2.2)

/-- `dec_r8` from src/cpu.rs. The `[HL]` case reads the raw backing byte and
writes through `Mmu::set`. -/
def dec_r8 (cpu : Cpu) (mem : Mmu) (opcode : Nat) : Cpu × Mmu × Nat :=
  let r := cpu.registers
  let arm : Nat × Cpu × Mmu × Nat :=
    match r8 ((opcode &&& 0b00111000) >>> 3) with
    | R8.B =>
        let result := (r.b + 255) % 256
        (result, { cpu with registers := { r with b := result } }, mem, 1)
    | R8.C =>
        let result := (r.c + 255) % 256
        (result, { cpu with registers := { r with c := result } }, mem, 1)
    | R8.D =>
        let result := (r.d + 255) % 256
        (result, { cpu with registers := { r with d := result } }, mem, 1)
    | R8.E =>
        let result := (r.e + 255) % 256
        (result, { cpu with registers := { r with e := result } }, mem, 1)
    | R8.H =>
        let result := (r.h + 255) % 256
        (result, { cpu with registers := { r with h := result } }, mem, 1)
    | R8.L =>
        let result := (r.l + 255) % 256
        (result, { cpu with registers := { r with l := result } }, mem, 1)
    | R8.HLMem =>
        let result := (mem.memory r.get_hl + 255) % 256
        (result, cpu, mem.set r.get_hl result, 3)
    | R8.A =>
        let result := (r.a + 255) % 256
        (result, { cpu with registers := { r with a := result } }, mem, 1)
  let result := arm.1
  let cpu := arm.2.1
  ({ cpu with flags :=
      { cpu.flags with z := result == 0, n := true, h := (result &&& 0xF) == 0xF } },
   arm.2.2.1, arm.2.2.2)

/-- `ld_r8_imm` from src/cpu.rs. -/
def ld_r8_imm (state : Cpu) (mem : Mmu) (opcode : Nat) (val : Nat) : Cpu × Mmu × Nat :=
  let r := state.registers
  match r8 ((opcode &&& 0b00111000) >>> 3) with
  | R8.B => ({ state with registers := { r with b := val } }, mem, 2)
  | R8.C => ({ state with registers := { r with c := val } }, mem, 2)
  | R8.D => ({ state with registers := { r with d := val } }, mem, 2)
  | R8.E => ({ state with registers := { r with e := val } }, mem, 2)
  | R8.H => ({ state with registers := { r with h := val } }, mem, 2)
  | R8.L => ({ state with registers := { r with l := val } }, mem, 2)
  | R8.HLMem => (state, mem.set r.get_hl val, 3)
  | R8.A => ({ state with registers := { r with a := val } }, mem, 2)

/-- `rotate_left` from src/cpu.rs: returns the updated CPU (carry flag
written) and the rotated byte; the u8 shift truncates. -/
def rotate_left (state : Cpu) (through_carry_flag : Bool) (val : Nat) : Cpu × Nat :=
  let b7 := val >>> 7
  let result :=
    if through_carry_flag then
      ((val <<< 1) % 256) ||| (if state.flags.c then 1 else 0)
    else
      ((val <<< 1) % 256) ||| b7
  ({ state with flags := { state.flags with c := b7 == 1 } }, result)

/-- `rotate_right` from src/cpu.rs. -/
def rotate_right (state : Cpu) (through_carry_flag : Bool) (val : Nat) : Cpu × Nat :=
  let b0 := val &&& 1
  let result :=
    if through_carry_flag then
      (if state.flags.c then 1 <<< 7 else 0) ||| (val >>> 1)
    else
      (b0 <<< 7) ||| (val >>> 1)
  ({ state with flags := { state.flags with c := b0 == 1 } }, result)

/-- `jr` from src/cpu.rs. -/
def jr (state : Cpu) (mem : Mmu) : Cpu :=
  let val := toI8 (mem.get (state.pc + 1))
  { state with pc := usizeAddSigned (state.pc + 2) val }

/-- `jp` from src/cpu.rs. -/
def jp (state : Cpu) (mem : Mmu) : Cpu :=
  { state with pc := u16_from_le (mem.get (state.pc + 1)) (mem.get (state.pc + 2)) }

/-- `jr_cond` from src/cpu.rs. -/
def jr_cond (state : Cpu) (mem : Mmu) (opcode : Nat) : Cpu × Nat :=
  match cond ((0b00011000 &&& opcode) >>> 3) with
  | Cond.NZ =>
      if !state.flags.z then (jr state mem, 3) else ({ state with pc := state.pc + 2 }, 2)
  | Cond.Z =>
      if state.flags.z then (jr state mem, 3) else ({ state with pc := state.pc + 2 }, 2)
  | Cond.NC =>
      if !state.flags.c then (jr state mem, 3) else ({ state with pc := state.pc + 2 }, 2)
  | Cond.C =>
      if state.flags.c then (jr state mem, 3) else ({ state with pc := state.pc + 2 }, 2)

/-- `jp_cond` from src/cpu.rs. -/
def jp_cond (state : Cpu) (mem : Mmu) (opcode : Nat) : Cpu × Nat :=
  match cond ((0b00011000 &&& opcode) >>> 3) with
  | Cond.NZ =>
      if !state.flags.z then (jp state mem, 4) else ({ state with pc := state.pc + 3 }, 3)
  | Cond.Z =>
      if state.flags.z then (jp state mem, 4) else ({ state with pc := state.pc + 3 }, 3)
  | Cond.NC =>
      if !state.flags.c then (jp state mem, 4) else ({ state with pc := state.pc + 3 }, 3)
  | Cond.C =>
      if state.flags.c then (jp state mem, 4) else ({ state with pc := state.pc + 3 }, 3)

/-- `get_register_value` from src/cpu.rs; the `[HL]` case bumps the internal
clock-cycle counter. -/
def get_register_value (state : Cpu) (mem : Mmu) (register : R8) : Cpu × Nat :=
  match register with
  | R8.B => (state, state.registers.b)
  | R8.C => (state, state.registers.c)
  | R8.D => (state, state.registers.d)
  | R8.E => (state, state.registers.e)
  | R8.H => (state, state.registers.h)
  | R8.L => (state, state.registers.l)
  | R8.HLMem =>
      ({ state with clock_cycles := state.clock_cycles + 1 },
       mem.get state.registers.get_hl)
  | R8.A => (state, state.registers.a)

/-- `set_register_value` from src/cpu.rs. -/
def set_register_value (state : Cpu) (mem : Mmu) (register : R8) (value : Nat) : Cpu × Mmu :=
  let r := state.registers
  match register with
  | R8.B => ({ state with registers := { r with b := value } }, mem)
  | R8.C => ({ state with registers := { r with c := value } }, mem)
  | R8.D => ({ state with registers := { r with d := value } }, mem)
  | R8.E => ({ state with registers := { r with e := value } }, mem)
  | R8.H => ({ state with registers := { r with h := value } }, mem)
  | R8.L => ({ state with registers := { r with l := value } }, mem)
  | R8.HLMem =>
      ({ state with clock_cycles := state.clock_cycles + 1 }, mem.set r.get_hl value)
  | R8.A => ({ state with registers := { r with a := value } }, mem)

/-- `halt` from src/cpu.rs. -/
def halt (state : Cpu) (mem : Mmu) : Cpu × Mmu × Nat :=
  ({ state with halted := true }, mem, 1)

/-- `ld_r8_r8` from src/cpu.rs; opcode 0x76 decodes as HALT. -/
def ld_r8_r8 (state : Cpu) (mem : Mmu) (opcode : Nat) : Cpu × Mmu × Nat :=
  let dest := r8 ((opcode &&& 0b00111000) >>> 3)
  let src := r8 (opcode &&& 0b00000111)
  if src = R8.HLMem ∧ dest = R8.HLMem then
    halt state mem
  else
    let g := get_register_value state mem src
    let s := set_register_value g.1 mem dest g.2
    (s.1, s.2, if src = R8.HLMem ∨ dest = R8.HLMem then 2 else 1)

/-- The `Binop` ALU operator type from src/cpu.rs: mutates the CPU and
returns the new flags. -/
def Binop : Type := Cpu → Nat → Cpu × Flags

/-- `operate` from src/cpu.rs. -/
def operate (state : Cpu) (mem : Mmu) (opcode : Nat) (operator : Binop) :
    Cpu × Mmu × Flags × Nat :=
  let operand := r8 (opcode &&& 0b00000111)
  let g := get_register_value state mem operand
  let o := operator g.1 g.2
  (o.1, mem, o.2, if operand = R8.HLMem then 2 else 1)

/-- `operate_imm` from src/cpu.rs (raw `Index` read of the immediate). -/
def operate_imm (state : Cpu) (mem : Mmu) (operator : Binop) : Cpu × Flags :=
  operator state (mem.memory (state.pc + 1))

/-- `add` from src/cpu.rs. -/
def add : Binop := fun state val =>
  let prev := state.registers.a
  let a := (prev + val) % 256
  ({ state with registers := { state.registers with a := a } },
   { z := a == 0
     n := false
     h := (prev &&& 0x0F) + (val &&& 0x0F) > 0x0F
     c := prev + val ≥ 256 })

/-- `adc` from src/cpu.rs: the prior carry participates in result, carry
and half-carry. -/
def adc : Binop := fun state val =>
  let prev := state.registers.a
  let cin := flag_to_u8 state.flags.c
  let a1 := (prev + val) % 256
  let carry1 := prev + val ≥ 256
  let a2 := (a1 + cin) % 256
  let carry2 := a1 + cin ≥ 256
  ({ state with registers := { state.registers with a := a2 } },
   { z := a2 == 0
     n := false
     h := (prev &&& 0x0F) + (val &&& 0x0F) + cin > 0x0F
     c := carry1 || carry2 })

/-- `sub` from src/cpu.rs (u8 wrapping subtraction; operands are bytes). -/
def sub : Binop := fun state val =>
  let prev := state.registers.a
  let a := (prev + 256 - val % 256) % 256
  ({ state with registers := { state.registers with a := a } },
   { z := a == 0
     n := true
     h := (prev &&& 0x0F) < (val &&& 0x0F)
     c := prev < val })

/-- `sbc` from src/cpu.rs. -/
def sbc : Binop := fun state val =>
  let prev := state.registers.a
  let cin := flag_to_u8 state.flags.c
  let a1 := (prev + 256 - val % 256) % 256
  let carry1 := prev < val
  let a2 := (a1 + 256 - cin) % 256
  let carry2 := a1 < cin
  ({ state with registers := { state.registers with a := a2 } },
   { z := a2 == 0
     n := true
     h := (prev &&& 0x0F) < (val &&& 0x0F) + cin
     c := carry1 || carry2 })

/-- `and_` from src/cpu.rs. -/
def and_ : Binop := fun state val =>
  let a := state.registers.a &&& val
  ({ state with registers := { state.registers with a := a } },
   { z := a == 0, n := false, h := true, c := false })

/-- `xor_` from src/cpu.rs. -/
def xor_ : Binop := fun state val =>
  let a := state.registers.a ^^^ val
  ({ state with registers := { state.registers with a := a } },
   { z := a == 0, n := false, h := false, c := false })

/-- `or_` from src/cpu.rs. -/
def or_ : Binop := fun state val =>
  let a := state.registers.a ||| val
  ({ state with registers := { state.registers with a := a } },
   { z := a == 0, n := false, h := false, c := false })

/-- `cp` from src/cpu.rs: flags as SUB, result discarded. -/
def cp : Binop := fun state val =>
  (state,
   { z := state.registers.a == val
     n := true
     h := (state.registers.a &&& 0x0F) < (val &&& 0x0F)
     c := state.registers.a < val })

/-- `ret` from src/cpu.rs. -/
def ret (state : Cpu) (mem : Mmu) : Cpu :=
  { state with
    pc := (mem.get (state.sp + 1) <<< 8) ||| mem.get state.sp
    sp := state.sp + 2 }

/-- `ret_cond` from src/cpu.rs. -/
def ret_cond (state : Cpu) (mem : Mmu) (opcode : Nat) : Cpu × Nat :=
  match cond ((opcode &&& 0b00011000) >>> 3) with
  | Cond.NZ =>
      if !state.flags.z then (ret state mem, 5) else ({ state with pc := state.pc + 1 }, 2)
  | Cond.Z =>
      if state.flags.z then (ret state mem, 5) else ({ state with pc := state.pc + 1 }, 2)
  | Cond.NC =>
      if !state.flags.c then (ret state mem, 5) else ({ state with pc := state.pc + 1 }, 2)
  | Cond.C =>
      if state.flags.c then (ret state mem, 5) else ({ state with pc := state.pc + 1 }, 2)

/-- `call` from src/cpu.rs: push the return address high-then-low, then
jump to the immediate target. The `usize` stack pointer wraps and is
truncated to u16 at the write. -/
def call (state : Cpu) (mem : Mmu) : Cpu × Mmu :=
  let sp1 := usub state.sp 1
  let mem := mem.set (sp1 % 65536) (((state.pc + 3) >>> 8) &&& 0xFF)
  let sp2 := usub sp1 1
  let mem := mem.set (sp2 % 65536) ((state.pc + 3) &&& 0xFF)
  let state := jp { state with sp := sp2 } mem
  ({ state with clock_cycles := state.clock_cycles + 6 }, mem)

/-- `call_cond` from src/cpu.rs. -/
def call_cond (state : Cpu) (mem : Mmu) (opcode : Nat) : Cpu × Mmu × Nat :=
  match cond ((0b00011000 &&& opcode) >>> 3) with
  | Cond.NZ =>
      if !state.flags.z then
        let r := call state mem
        (r.1, r.2, 6)
      else ({ state with pc := state.pc + 3 }, mem, 3)
  | Cond.Z =>
      if state.flags.z then
        let r := call state mem
        (r.1, r.2, 6)
      else ({ state with pc := state.pc + 3 }, mem, 3)
  | Cond.NC =>
      if !state.flags.c then
        let r := call state mem
        (r.1, r.2, 6)
      else ({ state with pc := state.pc + 3 }, mem, 3)
  | Cond.C =>
      if state.flags.c then
        let r := call state mem
        (r.1, r.2, 6)
      else ({ state with pc := state.pc + 3 }, mem, 3)

/-- `pop_r16stk` from src/cpu.rs; popping AF decodes the flag nibble. -/
def pop_r16stk (state : Cpu) (mem : Mmu) (opcode : Nat) : Cpu :=
  match r16stk ((opcode &&& 0b00110000) >>> 4) with
  | R16Stk.AF =>
      let f := mem.get state.sp
      { state with
        flags :=
          { z := (f &&& 0b10000000) >>> 7 == 1
            n := (f &&& 0b01000000) >>> 6 == 1
            h := (f &&& 0b00100000) >>> 5 == 1
            c := (f &&& 0b00010000) >>> 4 == 1 }
        registers := { state.registers with a := mem.get (state.sp + 1) }
        sp := state.sp + 2 }
  | R16Stk.BC =>
      { state with
        registers := { state.registers with c := mem.get state.sp, b := mem.get (state.sp + 1) }
        sp := state.sp + 2 }
  | R16Stk.DE =>
      { state with
        registers := { state.registers with e := mem.get state.sp, d := mem.get (state.sp + 1) }
        sp := state.sp + 2 }
  | R16Stk.HL =>
      { state with
        registers := { state.registers with l := mem.get state.sp, h := mem.get (state.sp + 1) }
        sp := state.sp + 2 }

/-- `push_r16stk` from src/cpu.rs; pushing AF stores the packed flag
byte (low nibble zero). -/
def push_r16stk (state : Cpu) (mem : Mmu) (opcode : Nat) : Cpu × Mmu :=
  let hi_lo : Nat × Nat :=
    match r16stk ((opcode &&& 0b00110000) >>> 4) with
    | R16Stk.AF =>
        (state.registers.a,
         (flag_to_u8 state.flags.z <<< 7) ||| (flag_to_u8 state.flags.n <<< 6) |||
         (flag_to_u8 state.flags.h <<< 5) ||| (flag_to_u8 state.flags.c <<< 4))
    | R16Stk.BC => (state.registers.b, state.registers.c)
    | R16Stk.DE => (state.registers.d, state.registers.e)
    | R16Stk.HL => (state.registers.h, state.registers.l)
  let sp1 := usub state.sp 1
  let mem := mem.set (sp1 % 65536) hi_lo.1
  let sp2 := usub sp1 1
  let mem := mem.set (sp2 % 65536) hi_lo.2
  ({ state with sp := sp2 }, mem)

/-- `sla_r8` from src/cpu.rs. -/
def sla_r8 (state : Cpu) (val : Nat) : Cpu × Nat :=
  let new_val := (val <<< 1) % 256
  ({ state with flags :=
      { z := new_val == 0, n := false, h := false, c := (val &&& 0b10000000) == 0b10000000 } },
   new_val)

/-- `sra_r8` from src/cpu.rs (arithmetic shift keeps bit 7). -/
def sra_r8 (state : Cpu) (val : Nat) : Cpu × Nat :=
  let new_val := (val &&& 0b10000000) ||| (val >>> 1)
  ({ state with flags :=
      { z := new_val == 0, n := false, h := false, c := (val &&& 0b00000001) == 0b00000001 } },
   new_val)

/-- `swap_r8` from src/cpu.rs. -/
def swap_r8 (state : Cpu) (val : Nat) : Cpu × Nat :=
  let new_val := ((val &&& 0x0F) <<< 4) ||| ((val &&& 0xF0) >>> 4)
  ({ state with flags := { z := new_val == 0, n := false, h := false, c := false } },
   new_val)

/-- `srl_r8` from src/cpu.rs. -/
def srl_r8 (state : Cpu) (val : Nat) : Cpu × Nat :=
  let new_val := val >>> 1
  ({ state with flags :=
      { z := new_val == 0, n := false, h := false, c := (val &&& 0b00000001) == 0b00000001 } },
   new_val)

/-- The `bit` instruction helper from src/cpu.rs (BIT b, r8). -/
def bitInstr (state : Cpu) (mem : Mmu) (opcode : Nat) : Cpu :=
  let b := (opcode &&& 0b00111000) >>> 3
  let operand := r8 (opcode &&& 0b00000111)
  let g := get_register_value state mem operand
  { g.1 with flags := { g.1.flags with z := (g.2 &&& (1 <<< b)) == 0 } }

/-- The `res` instruction helper from src/cpu.rs (RES b, r8); the u8 mask
`!(1 << bit)` is written `0xFF ^^^ (1 <<< b)`. -/
def resInstr (state : Cpu) (mem : Mmu) (opcode : Nat) : Cpu × Mmu :=
  let b := (opcode &&& 0b00111000) >>> 3
  let operand := r8 (opcode &&& 0b00000111)
  let g := get_register_value state mem operand
  set_register_value g.1 mem operand (g.2 &&& (0xFF ^^^ (1 <<< b)))

/-- The `set` instruction helper from src/cpu.rs (SET b, r8). -/
def setInstr (state : Cpu) (mem : Mmu) (opcode : Nat) : Cpu × Mmu :=
  let b := (opcode &&& 0b00111000) >>> 3
  let operand := r8 (opcode &&& 0b00000111)
  let g := get_register_value state mem operand
  set_register_value g.1 mem operand (g.2 ||| (1 <<< b))

/-- `execute_prefix_cb` from src/cpu.rs: decode and run one 0xCB-page
instruction, returning the machine-cycle count (3 for BIT on `[HL]`, 4 for
other `[HL]` accesses, 2 otherwise). The panicking default arm is
unreachable (the three final families cover every remaining bit pattern),
so it is folded into the final case. -/
def execute_cb (state : Cpu) (mem : Mmu) : Cpu × Mmu × Nat :=
  let opcode := mem.get (state.pc + 1)
  let operand := r8 (opcode &&& 0b00000111)
  let g := get_register_value state mem operand
  let state0 := g.1
  let val := g.2
  let stepped : Cpu × Mmu :=
    if opcode &&& 0b11111000 = 0b00000000 then
      -- RLC r8
      let r := rotate_left state0 false val
      let s := set_register_value r.1 mem operand r.2
      ({ s.1 with
          flags := { s.1.flags with n := false, h := false, z := r.2 == 0 }
          pc := s.1.pc + 1 }, s.2)
    else if opcode &&& 0b11111000 = 0b00001000 then
      -- RRC r8
      let r := rotate_right state0 false val
      let s := set_register_value r.1 mem operand r.2
      ({ s.1 with
          flags := { s.1.flags with n := false, h := false, z := r.2 == 0 }
          pc := s.1.pc + 1 }, s.2)
    else if opcode &&& 0b11111000 = 0b00010000 then
      -- RL r8
      let r := rotate_left state0 true val
      let s := set_register_value r.1 mem operand r.2
      ({ s.1 with
          flags := { s.1.flags with n := false, h := false, z := r.2 == 0 }
          pc := s.1.pc + 1 }, s.2)
    else if opcode &&& 0b11111000 = 0b00011000 then
      -- RR r8
      let r := rotate_right state0 true val
      let s := set_register_value r.1 mem operand r.2
      ({ s.1 with
          flags := { s.1.flags with n := false, h := false, z := r.2 == 0 }
          pc := s.1.pc + 1 }, s.2)
    else if opcode &&& 0b11111000 = 0b00100000 then
      -- SLA r8
      let r := sla_r8 state0 val
      let s := set_register_value r.1 mem operand r.2
      ({ s.1 with pc := s.1.pc + 1 }, s.2)
    else if opcode &&& 0b11111000 = 0b00101000 then
      -- SRA r8
      let r := sra_r8 state0 val
      let s := set_register_value r.1 mem operand r.2
      ({ s.1 with pc := s.1.pc + 1 }, s.2)
    else if opcode &&& 0b11111000 = 0b00110000 then
      -- SWAP r8
      let r := swap_r8 state0 val
      let s := set_register_value r.1 mem operand r.2
      ({ s.1 with pc := s.1.pc + 1 }, s.2)
    else if opcode &&& 0b11111000 = 0b00111000 then
      -- SRL r8
      let r := srl_r8 state0 val
      let s := set_register_value r.1 mem operand r.2
      ({ s.1 with pc := s.1.pc + 1 }, s.2)
    else if opcode &&& 0b11000000 = 0b01000000 then
      -- BIT b, r8
      let s := bitInstr state0 mem opcode
      ({ s with
          flags := { s.flags with n := false, h := true }
          pc := s.pc + 1 }, mem)
    else if opcode &&& 0b11000000 = 0b10000000 then
      -- RES b, r8
      let s := resInstr state0 mem opcode
      ({ s.1 with pc := s.1.pc + 1 }, s.2)
    else
      -- SET b, r8
      let s := setInstr state0 mem opcode
      ({ s.1 with pc := s.1.pc + 1 }, s.2)
  (stepped.1, stepped.2,
   if operand = R8.HLMem ∧ opcode &&& 0b11000000 = 0b01000000 then 3
   else if operand = R8.HLMem then 4
   else 2)

/-- `Cpu::execute` from src/cpu.rs, before the final `clock_cycles * 4`
scaling: decode the opcode at PC, apply the instruction, and return the new
CPU, the new memory and the machine-cycle count. Unrecognized opcodes
(which panic in the source) yield `none`. Branches appear in source order. -/
def executeCore (cpu : Cpu) (mem : Mmu) : Option (Cpu × Mmu × Nat) :=
  let op := mem.get cpu.pc
  if op = 0x00 then
    -- NOP
    some ({ cpu with pc := cpu.pc + 1 }, mem, 1)
  else if op &&& 0b11001111 = 0b00000001 then
    -- ld r16, imm16
    let imm16 := u16_from_le (mem.get (cpu.pc + 1)) (mem.get (cpu.pc + 2))
    let c := ld_r16 (r16 ((op &&& 0b00110000) >>> 4)) cpu imm16
    some ({ c with pc := c.pc + 3 }, mem, 3)
  else if op &&& 0b11001111 = 0b00000010 then
    -- ld [r16mem], a
    let r := ld_r16_mem_a (r16_mem ((op &&& 0b00110000) >>> 4)) cpu mem
    some ({ r.1 with pc := r.1.pc + 1 }, r.2, 2)
  else if op &&& 0b11001111 = 0b00001010 then
    -- ld a, [r16mem]
    let r := ld_a_r16_mem (r16_mem ((op &&& 0b00110000) >>> 4)) cpu mem
    some ({ r.1 with pc := r.1.pc + 1 }, r.2, 2)
  else if op = 0x08 then
    -- ld [imm16], sp
    let m := ld_imm16_sp cpu mem (u16_from_le (mem.get (cpu.pc + 1)) (mem.get (cpu.pc + 2)))
    some ({ cpu with pc := cpu.pc + 3 }, m, 5)
  else if op &&& 0b11001111 = 0b00000011 then
    -- inc r16
    let c := inc_r16 cpu op
    some ({ c with pc := c.pc + 1 }, mem, 2)
  else if op &&& 0b11001111 = 0b00001011 then
    -- dec r16
    let c := dec_r16 cpu op
    some ({ c with pc := c.pc + 1 }, mem, 2)
  else if op &&& 0b11001111 = 0b00001001 then
    -- add hl, r16
    let hl := cpu.registers.get_hl
    let q : Nat × Nat × Bool × Bool :=
      match r16 ((op &&& 0b00110000) >>> 4) with
      | R16.BC => add_8_8 cpu.registers.b cpu.registers.c hl
      | R16.DE => add_8_8 cpu.registers.d cpu.registers.e hl
      | R16.HL => add_8_8 cpu.registers.h cpu.registers.l hl
      | R16.SP => add_8_8 ((cpu.sp >>> 8) &&& 0xFF) (cpu.sp &&& 0xFF) hl
    let c :=
      { cpu with
        registers := cpu.registers.set_hl ((q.1 <<< 8) ||| q.2.1)
        flags := { cpu.flags with n := false, c := q.2.2.1, h := q.2.2.2 } }
    some ({ c with pc := c.pc + 1 }, mem, 2)
  else if op &&& 0b11000111 = 0b00000100 then
    -- INC r8
    let r := inc_r8 cpu mem op
    some ({ r.1 with pc := r.1.pc + 1 }, r.2.1, r.2.2)
  else if op &&& 0b11000111 = 0b00000101 then
    -- DEC r8
    let r := dec_r8 cpu mem op
    some ({ r.1 with pc := r.1.pc + 1 }, r.2.1, r.2.2)
  else if op &&& 0b11000111 = 0b00000110 then
    -- LD r8, imm8
    let r := ld_r8_imm cpu mem op (mem.get (cpu.pc + 1))
    some ({ r.1 with pc := r.1.pc + 2 }, r.2.1, r.2.2)
  else if op = 0x07 then
    -- RLCA
    let r := rotate_left cpu false cpu.registers.a
    some ({ r.1 with
            registers := { r.1.registers with a := r.2 }
            flags := { r.1.flags with z := false, n := false, h := false }
            pc := r.1.pc + 1 }, mem, 1)
  else if op = 0x0F then
    -- RRCA
    let r := rotate_right cpu false cpu.registers.a
    some ({ r.1 with
            registers := { r.1.registers with a := r.2 }
            flags := { r.1.flags with z := false, n := false, h := false }
            pc := r.1.pc + 1 }, mem, 1)
  else if op = 0x17 then
    -- RLA
    let r := rotate_left cpu true cpu.registers.a
    some ({ r.1 with
            registers := { r.1.registers with a := r.2 }
            flags := { r.1.flags with z := false, n := false, h := false }
            pc := r.1.pc + 1 }, mem, 1)
  else if op = 0x1F then
    -- RRA
    let r := rotate_right cpu true cpu.registers.a
    some ({ r.1 with
            registers := { r.1.registers with a := r.2 }
            flags := { r.1.flags with z := false, n := false, h := false }
            pc := r.1.pc + 1 }, mem, 1)
  else if op = 0x27 then
    -- DAA
    let a0 := cpu.registers.a
    let s1 : Nat × Bool :=
      if !cpu.flags.n then
        let p := if cpu.flags.c ∨ a0 > 0x99 then ((a0 + 0x60) % 256, true) else (a0, cpu.flags.c)
        if cpu.flags.h ∨ (p.1 &&& 0x0F) > 0x09 then ((p.1 + 0x06) % 256, p.2) else p
      else
        let a1 := if cpu.flags.c then (a0 + 256 - 0x60) % 256 else a0
        (if cpu.flags.h then (a1 + 256 - 0x06) % 256 else a1, cpu.flags.c)
    some ({ cpu with
            registers := { cpu.registers with a := s1.1 }
            flags := { cpu.flags with z := s1.1 == 0, h := false, c := s1.2 }
            pc := cpu.pc + 1 }, mem, 1)
  else if op = 0x2F then
    -- CPL
    some ({ cpu with
            registers := { cpu.registers with a := cpu.registers.a ^^^ 0xFF }
            flags := { cpu.flags with n := true, h := true }
            pc := cpu.pc + 1 }, mem, 1)
  else if op = 0x37 then
    -- SCF
    some ({ cpu with
            flags := { cpu.flags with n := false, h := false, c := true }
            pc := cpu.pc + 1 }, mem, 1)
  else if op = 0x3F then
    -- CCF
    some ({ cpu with
            flags := { cpu.flags with n := false, h := false, c := !cpu.flags.c }
            pc := cpu.pc + 1 }, mem, 1)
  else if op = 0x18 then
    -- JR imm8
    let val := toI8 (mem.get (cpu.pc + 1))
    some ({ cpu with pc := usizeAddSigned (cpu.pc + 2) val }, mem, 3)
  else if op &&& 0b11100111 = 0b00100000 then
    -- JR COND, imm8
    let r := jr_cond cpu mem op
    some (r.1, mem, r.2)
  else if op = 0x10 then
    -- STOP (resets the DIV register)
    some ({ cpu with pc := cpu.pc + 2 }, mem.set 0xFF04 0, 1)
  else if op &&& 0b11000000 = 0b01000000 then
    -- LD r8, r8
    let r := ld_r8_r8 cpu mem op
    some ({ r.1 with pc := r.1.pc + 1 }, r.2.1, r.2.2)
  else if op &&& 0b11111000 = 0b10000000 then
    -- ADD A, r8
    let r := operate cpu mem op add
    some ({ r.1 with flags := r.2.2.1, pc := r.1.pc + 1 }, r.2.1, r.2.2.2)
  else if op &&& 0b11111000 = 0b10001000 then
    -- ADC A, r8
    let r := operate cpu mem op adc
    some ({ r.1 with flags := r.2.2.1, pc := r.1.pc + 1 }, r.2.1, r.2.2.2)
  else if op &&& 0b11111000 = 0b10010000 then
    -- SUB A, r8
    let r := operate cpu mem op sub
    some ({ r.1 with flags := r.2.2.1, pc := r.1.pc + 1 }, r.2.1, r.2.2.2)
  else if op &&& 0b11111000 = 0b10011000 then
    -- SBC A, r8
    let r := operate cpu mem op sbc
    some ({ r.1 with flags := r.2.2.1, pc := r.1.pc + 1 }, r.2.1, r.2.2.2)
  else if op &&& 0b11111000 = 0b10100000 then
    -- AND A, r8
    let r := operate cpu mem op and_
    some ({ r.1 with flags := r.2.2.1, pc := r.1.pc + 1 }, r.2.1, r.2.2.2)
  else if op &&& 0b11111000 = 0b10101000 then
    -- XOR A, r8
    let r := operate cpu mem op xor_
    some ({ r.1 with flags := r.2.2.1, pc := r.1.pc + 1 }, r.2.1, r.2.2.2)
  else if op &&& 0b11111000 = 0b10110000 then
    -- OR A, r8
    let r := operate cpu mem op or_
    some ({ r.1 with flags := r.2.2.1, pc := r.1.pc + 1 }, r.2.1, r.2.2.2)
  else if op &&& 0b11111000 = 0b10111000 then
    -- CP A, r8
    let r := operate cpu mem op cp
    some ({ r.1 with flags := r.2.2.1, pc := r.1.pc + 1 }, r.2.1, r.2.2.2)
  else if op = 0xC6 then
    -- ADD A, imm8
    let r := operate_imm cpu mem add
    some ({ r.1 with flags := r.2, pc := r.1.pc + 2 }, mem, 2)
  else if op = 0xCE then
    -- ADC A, imm8
    let r := operate_imm cpu mem adc
    some ({ r.1 with flags := r.2, pc := r.1.pc + 2 }, mem, 2)
  else if op = 0xD6 then
    -- SUB A, imm8
    let r := operate_imm cpu mem sub
    some ({ r.1 with flags := r.2, pc := r.1.pc + 2 }, mem, 2)
  else if op = 0xDE then
    -- SBC A, imm8
    let r := operate_imm cpu mem sbc
    some ({ r.1 with flags := r.2, pc := r.1.pc + 2 }, mem, 2)
  else if op = 0xE6 then
    -- AND A, imm8
    let r := operate_imm cpu mem and_
    some ({ r.1 with flags := r.2, pc := r.1.pc + 2 }, mem, 2)
  else if op = 0xEE then
    -- XOR A, imm8
    let r := operate_imm cpu mem xor_
    some ({ r.1 with flags := r.2, pc := r.1.pc + 2 }, mem, 2)
  else if op = 0xF6 then
    -- OR A, imm8
    let r := operate_imm cpu mem or_
    some ({ r.1 with flags := r.2, pc := r.1.pc + 2 }, mem, 2)
  else if op = 0xFE then
    -- CP A, imm8
    let r := operate_imm cpu mem cp
    some ({ r.1 with flags := r.2, pc := r.1.pc + 2 }, mem, 2)
  else if op &&& 0b11100111 = 0b11000000 then
    -- RET COND
    let r := ret_cond cpu mem op
    some (r.1, mem, r.2)
  else if op = 0xC9 then
    -- RET
    some (ret cpu mem, mem, 4)
  else if op = 0xD9 then
    -- RETI
    some (ret { cpu with ime := true } mem, mem, 4)
  else if op &&& 0b11100111 = 0b11000010 then
    -- JP COND, imm16
    let r := jp_cond cpu mem op
    some (r.1, mem, r.2)
  else if op = 0xC3 then
    -- JP imm16
    some (jp cpu mem, mem, 4)
  else if op = 0xE9 then
    -- JP HL
    some ({ cpu with pc := cpu.registers.get_hl }, mem, 1)
  else if op &&& 0b11100111 = 0b11000100 then
    -- CALL COND, imm16
    some (call_cond cpu mem op)
  else if op = 0xCD then
    -- CALL imm16
    let r := call cpu mem
    some (r.1, r.2, 6)
  else if op &&& 0b11000111 = 0b11000111 then
    -- RST tgt3
    let sp1 := usub cpu.sp 1
    let mem := mem.set (sp1 % 65536) (((cpu.pc + 1) &&& 0xFF00) >>> 8)
    let sp2 := usub sp1 1
    let mem := mem.set (sp2 % 65536) ((cpu.pc + 1) &&& 0xFF)
    some ({ cpu with sp := sp2, pc := op &&& 0b00111000 }, mem, 4)
  else if op &&& 0b11001111 = 0b11000001 then
    -- POP r16stk
    let c := pop_r16stk cpu mem op
    some ({ c with pc := c.pc + 1 }, mem, 3)
  else if op &&& 0b11001111 = 0b11000101 then
    -- PUSH r16stk
    let r := push_r16stk cpu mem op
    some ({ r.1 with pc := r.1.pc + 1 }, r.2, 4)
  else if op = 0xE2 then
    -- LDH [C], A
    some ({ cpu with pc := cpu.pc + 1 },
          mem.set (0xFF00 + cpu.registers.c) cpu.registers.a, 2)
  else if op = 0xE0 then
    -- LDH [imm8], A
    let addr := mem.get (cpu.pc + 1)
    some ({ cpu with pc := cpu.pc + 2 }, mem.set (0xFF00 + addr) cpu.registers.a, 3)
  else if op = 0xEA then
    -- LD [imm16], A
    let addr := (mem.get (cpu.pc + 2) <<< 8) ||| mem.get (cpu.pc + 1)
    some ({ cpu with pc := cpu.pc + 3 }, mem.set addr cpu.registers.a, 4)
  else if op = 0xF2 then
    -- LDH A, [C]
    some ({ cpu with
            registers := { cpu.registers with a := mem.get (0xFF00 + cpu.registers.c) }
            pc := cpu.pc + 1 }, mem, 2)
  else if op = 0xF0 then
    -- LDH A, [imm8] (raw Index read of the immediate)
    some ({ cpu with
            registers := { cpu.registers with a := mem.get (0xFF00 + mem.memory (cpu.pc + 1)) }
            pc := cpu.pc + 2 }, mem, 3)
  else if op = 0xFA then
    -- LD A, [imm16]
    some ({ cpu with
            registers :=
              { cpu.registers with
                a := mem.get ((mem.get (cpu.pc + 2) <<< 8) ||| mem.get (cpu.pc + 1)) }
            pc := cpu.pc + 3 }, mem, 4)
  else if op = 0xE8 then
    -- ADD SP, imm8 (the source casts SP to u16 first; `(-diff) as usize`
    -- agrees with `(-diff).toNat` under the masks 0x0F and 0xFF used here)
    let diff := toI8 (mem.memory (cpu.pc + 1))
    let prev := cpu.sp % 65536
    let result := ((((prev : Int) + diff) % 65536 + 65536) % 65536).toNat
    some ({ cpu with
            sp := result
            flags :=
              { z := false
                n := false
                h := if 0 ≤ diff then (prev &&& 0xF) + (diff.toNat &&& 0xF) > 0xF
                     else (prev &&& 0x0F) ≥ ((-diff).toNat &&& 0x0F)
                c := if 0 ≤ diff then (prev &&& 0xFF) + (diff.toNat &&& 0xFF) > 0xFF
                     else (prev &&& 0xFF) ≥ ((-diff).toNat &&& 0xFF) }
            pc := cpu.pc + 2 }, mem, 4)
  else if op = 0xF8 then
    -- LD HL, SP + imm8 (SP stays usize; the result is truncated to u16 by
    -- `set_hl`'s argument cast)
    let diff := toI8 (mem.memory (cpu.pc + 1))
    let prev := cpu.sp
    let result := usizeAddSigned prev diff
    some ({ cpu with
            registers := cpu.registers.set_hl (result % 65536)
            flags :=
              { z := false
                n := false
                h := if 0 ≤ diff then (prev &&& 0xF) + (diff.toNat &&& 0xF) > 0xF
                     else (prev &&& 0x0F) ≥ ((-diff).toNat &&& 0x0F)
                c := if 0 ≤ diff then (prev &&& 0xFF) + (diff.toNat &&& 0xFF) > 0xFF
                     else (prev &&& 0xFF) ≥ ((-diff).toNat &&& 0xFF) }
            pc := cpu.pc + 2 }, mem, 3)
  else if op = 0xF9 then
    -- LD SP, HL
    some ({ cpu with sp := cpu.registers.get_hl, pc := cpu.pc + 1 }, mem, 2)
  else if op = 0xF3 then
    -- DI
    some ({ cpu with ime := false, pc := cpu.pc + 1 }, mem, 1)
  else if op = 0xFB then
    -- EI
    some ({ cpu with ime_delay := true, pc := cpu.pc + 1 }, mem, 1)
  else if op = 0xCB then
    -- 0xCB page
    let r := execute_cb cpu mem
    some ({ r.1 with pc := r.1.pc + 1 }, r.2.1, r.2.2)
  else
    none

/-- `Cpu::execute` from src/cpu.rs: the returned count is
`clock_cycles * 4`. -/
def execute (cpu : Cpu) (mem : Mmu) : Option (Cpu × Mmu × Nat) :=
  (executeCore cpu mem).map (fun r => (r.1, r.2.1, r.2.2 * 4))

/-- The cycle count returned by one `execute` call. -/
def execCycles (cpu : Cpu) (mem : Mmu) : Option Nat :=
  (execute cpu mem).map (fun r => r.2.2)

/-- `Cpu::handle_interrupt` from src/cpu.rs: clear the line's IF bit, drop
IME, push PC (low byte at the new SP, high byte at SP+1) and jump to the
line's vector. -/
def handle_interrupt (cpu : Cpu) (mem : Mmu) (interrupt : Interrupt) : Cpu × Mmu :=
  let mem := interrupt.clear mem
  let sp := usub cpu.sp 2
  let mem := mem.set (sp % 65536) (cpu.pc &&& 0xFF)
  let mem := mem.set (sp % 65536 + 1) ((cpu.pc >>> 8) &&& 0xFF)
  ({ cpu with ime := false, sp := sp, pc := interrupt.address }, mem)

/-- One iteration of the loop in `Cpu::handle_interrupts`. The third
component counts dispatches (executions of `handle_interrupt`); it is ghost
instrumentation used only to state how many interrupts a call services. -/
def hi_step (acc : Cpu × Mmu × Nat) (interrupt : Interrupt) : Cpu × Mmu × Nat :=
  let cpu := { acc.1 with halted := false }
  if cpu.ime && interrupt.enabled acc.2.1 then
    let r := handle_interrupt cpu acc.2.1 interrupt
    (r.1, r.2, acc.2.2 + 1)
  else
    (cpu, acc.2.1, acc.2.2)

/-- `Cpu::handle_interrupts` from src/cpu.rs: iterate over the pending
lines in priority order. -/
def handle_interrupts (cpu : Cpu) (mem : Mmu) : Cpu × Mmu × Nat :=
  (get_interrupts mem).foldl hi_step (cpu, mem, 0)

/-- `get_bit` from src/ppu.rs: 1 if the bit is set, else 0. -/
def get_bit (value : Nat) (bit : Nat) : Nat :=
  if value &&& (1 <<< bit) ≠ 0 then 1 else 0

/-- The `Palette` enum from src/ppu.rs. -/
inductive Palette where
  | OBP0
  | OBP1
  | BGP
deriving DecidableEq

/-- The `Pixel` struct from src/ppu.rs: a 2-bit color index, the palette it
resolves through, and the sprite priority bit. -/
structure Pixel where
  color : Nat
  palette : Palette
  priority : Bool
deriving DecidableEq

/-- The `PPUMode` enum from src/ppu.rs. -/
inductive PPUMode where
  | HBlank
  | VBlank
  | OAMSearch
  | PixelTransfer
deriving DecidableEq

/-- The mode-machine state of `struct PPU` from src/ppu.rs. The fields
kept are the ones the scanline state machine reads or writes:
`mode`, `cycle_counter`, `mode3_extra_cycles`, `lx`, `window_counter` and
`tall_sprites`. The pixel FIFOs, the sprite buffer, the pixel buffer and
the host canvas/texture feed only the drawing path, which `render` invokes
through `draw_line`; that call is represented by the oracle argument `d` of
`renderStep` below (the extra-cycle total `draw_line` stores in
`mode3_extra_cycles`). The write-only `clock_cycles` accumulator is
omitted. -/
structure PpuState where
  mode : PPUMode
  cycle_counter : Int
  mode3_extra_cycles : Int
  lx : Nat
  window_counter : Nat
  tall_sprites : Bool
deriving DecidableEq

/-- `PPU::stat_interrupt` from src/ppu.rs: refresh the LY==LYC coincidence
bit of STAT and raise LCD_STAT for armed sources. -/
def stat_interrupt (mem : Mmu) : Mmu :=
  let stat := mem.get STAT
  let mode := stat &&& 0b11
  let mode2 := (stat >>> 3) &&& 0b1
  let mode1 := (stat >>> 4) &&& 0b1
  let mode0 := (stat >>> 5) &&& 0b1
  let ly := mem.get LY
  let lyc := mem.get LYC
  let coincidence := ly = lyc
  let mem := mem.set STAT ((stat &&& 0b11111011) ||| if coincidence then 0b100 else 0)
  let coincidence_interrupt := (stat >>> 6) &&& 0b1
  let mem :=
    if coincidence ∧ coincidence_interrupt ≠ 0 then Interrupt.LcdStat.trigger mem else mem
  if mode = 0 ∧ mode0 ≠ 0 then Interrupt.LcdStat.trigger mem
  else if mode = 1 ∧ mode1 ≠ 0 then Interrupt.LcdStat.trigger mem
  else if mode = 2 ∧ mode2 ≠ 0 then Interrupt.LcdStat.trigger mem
  else mem

/-- `PPU::render` from src/ppu.rs: advance the mode state machine by
`cycles`. The oracle `d` stands for the extra-cycle total the `draw_line`
call of the PIXEL_TRANSFER arm computes and stores in
`mode3_extra_cycles` (sprite scanning and pixel drawing touch no state this
machine reads). The Bool result is the source's `Ok(true)` — a completed
frame, which coincides exactly with the `Interrupt::VBlank.trigger` call. -/
def renderStep (d : Int) (p : PpuState) (mem : Mmu) (cycles : Int) : PpuState × Mmu × Bool :=
  let p := { p with cycle_counter := p.cycle_counter + cycles }
  let mem := stat_interrupt mem
  match p.mode with
  | PPUMode.VBlank =>
      if p.cycle_counter ≥ 456 then
        let mem := mem.set LY 0
        let mem := Interrupt.VBlank.trigger mem
        ({ p with
            cycle_counter := p.cycle_counter - 456
            window_counter := 0
            mode := PPUMode.OAMSearch }, mem, true)
      else (p, mem, false)
  | PPUMode.OAMSearch =>
      if p.cycle_counter ≥ 80 then
        ({ p with
            tall_sprites := get_bit (mem.get LCDC) 2 ≠ 0
            cycle_counter := p.cycle_counter - 80
            mode := PPUMode.PixelTransfer }, mem, false)
      else (p, mem, false)
  | PPUMode.PixelTransfer =>
      if p.cycle_counter ≥ 172 + p.mode3_extra_cycles then
        -- the source zeroes mode3_extra_cycles, runs draw_line (which
        -- stores its extra-cycle total d back into it), then subtracts
        -- 172 + the new value
        ({ p with
            mode3_extra_cycles := d
            cycle_counter := p.cycle_counter - (172 + d)
            mode := PPUMode.HBlank }, mem, false)
      else (p, mem, false)
  | PPUMode.HBlank =>
      if p.cycle_counter ≥ 289 - p.mode3_extra_cycles then
        let p := { p with
                    cycle_counter := p.cycle_counter - (289 - p.mode3_extra_cycles)
                    lx := 0 }
        let p :=
          if mem.get WY ≤ mem.get LY ∧ get_bit (mem.get LCDC) 5 ≠ 0 then
            { p with window_counter := (p.window_counter + 1) % 256 }
          else p
        if mem.get LY = 176 then
          ({ p with mode := PPUMode.VBlank }, mem.set LY 0, false)
        else
          ({ p with mode := PPUMode.OAMSearch }, mem.set LY (mem.get LY + 1), false)
      else (p, mem, false)

/-- Drive `renderStep` over a list of cycle increments, counting completed
frames (equivalently, VBLANK interrupt triggers). -/
def renderRun (d : Int) (l : List Int) (p : PpuState) (mem : Mmu) (k : Nat) :
    PpuState × Mmu × Nat :=
  match l with
  | [] => (p, mem, k)
  | c :: rest =>
      let r := renderStep d p mem c
      renderRun d rest r.1 r.2.1 (k + if r.2.2 then 1 else 0)

/-- `PPU::merge_pixels` from src/ppu.rs. -/
def merge_pixels (mem : Mmu) (bg : Pixel) (sprite : Option Pixel) : Pixel :=
  match sprite with
  | some s =>
      if get_bit (mem.get LCDC) 0 = 0 then s
      else if get_bit (mem.get LCDC) 1 = 0 then bg
      else if (s.priority ∧ bg.color ≠ 0) ∨ s.color = 0 then bg
      else s
  | none => bg

/-! Spec-side definitions: the canonical opcode timing table, the
condition-code reading, and the pixel-merge rule, written from the
specification's words for comparison with the embedded code. -/

/-- Spec-side: the four condition codes NZ, Z, NC, C encoded in bits 4–3 of
a conditional opcode, evaluated on the flags. -/
def condTaken (op : Nat) (f : Flags) : Bool :=
  match (op >>> 3) &&& 0b11 with
  | 0 => !f.z
  | 1 => f.z
  | 2 => !f.c
  | _ => f.c

/-- Spec-side: the canonical opcode timing table, in machine cycles
(1 machine cycle = 4 T-cycles). `op` is the first opcode byte, `op2` the
byte after it (consulted only for the 0xCB page), and `taken` whether the
condition of a conditional JR/JP/RET/CALL holds. Values follow the
canonical LR35902 table: `[HL]`-sourced operands cost one extra machine
cycle, and taken conditional branches cost more than untaken ones. -/
def canonicalMCycles (op op2 : Nat) (taken : Bool) : Nat :=
  if op = 0xCB then
    -- CB page: BIT b,[HL] is 3; shifts/rotates/SWAP/RES/SET on [HL] are 4;
    -- register forms are 2
    if op2 &&& 0b111 = 6 then (if op2 &&& 0xC0 = 0x40 then 3 else 4) else 2
  else if op = 0x08 then 5                                  -- LD [imm16],SP
  else if op = 0xCD then 6                                  -- CALL imm16
  else if op &&& 0xE7 = 0xC4 then (if taken then 6 else 3)  -- CALL cc,imm16
  else if op &&& 0xE7 = 0xC0 then (if taken then 5 else 2)  -- RET cc
  else if op = 0xC9 ∨ op = 0xD9 then 4                      -- RET / RETI
  else if op = 0xC3 then 4                                  -- JP imm16
  else if op &&& 0xE7 = 0xC2 then (if taken then 4 else 3)  -- JP cc,imm16
  else if op = 0x18 then 3                                  -- JR imm8
  else if op &&& 0xE7 = 0x20 then (if taken then 3 else 2)  -- JR cc,imm8
  else if op &&& 0xC7 = 0x06 then (if op &&& 0x38 = 0x30 then 3 else 2)  -- LD r8,imm8
  else if op &&& 0xC7 = 0x04 ∨ op &&& 0xC7 = 0x05 then
    (if op &&& 0x38 = 0x30 then 3 else 1)                   -- INC/DEC r8
  else if op = 0x76 then 1                                  -- HALT
  else if op &&& 0xC0 = 0x40 then
    (if op &&& 0x07 = 6 ∨ op &&& 0x38 = 0x30 then 2 else 1) -- LD r8,r8
  else if op &&& 0xC0 = 0x80 then (if op &&& 0x07 = 6 then 2 else 1)  -- ALU A,r8
  else if op &&& 0xC7 = 0xC6 then 2                         -- ALU A,imm8
  else if op &&& 0xC7 = 0xC7 then 4                         -- RST
  else if op &&& 0xCF = 0x01 then 3                         -- LD r16,imm16
  else if op &&& 0xCF = 0x02 ∨ op &&& 0xCF = 0x0A then 2    -- LD [r16mem],A / LD A,[r16mem]
  else if op &&& 0xCF = 0x03 ∨ op &&& 0xCF = 0x0B ∨ op &&& 0xCF = 0x09 then 2
                                                            -- INC/DEC r16, ADD HL,r16
  else if op &&& 0xCF = 0xC1 then 3                         -- POP r16stk
  else if op &&& 0xCF = 0xC5 then 4                         -- PUSH r16stk
  else if op = 0xE0 ∨ op = 0xF0 then 3                      -- LDH [imm8],A / A,[imm8]
  else if op = 0xE2 ∨ op = 0xF2 then 2                      -- LDH [C],A / A,[C]
  else if op = 0xEA ∨ op = 0xFA then 4                      -- LD [imm16],A / A,[imm16]
  else if op = 0xE8 then 4                                  -- ADD SP,imm8
  else if op = 0xF8 then 3                                  -- LD HL,SP+imm8
  else if op = 0xF9 then 2                                  -- LD SP,HL
  else if op = 0xE9 then 1                                  -- JP HL
  else 1        -- NOP, STOP, rotate-A, DAA, CPL, SCF, CCF, DI, EI

/-- The eleven opcodes the decoder's default arm rejects (the illegal
LR35902 encodings). -/
def illegalOpcodes : List Nat :=
  [0xD3, 0xDB, 0xDD, 0xE3, 0xE4, 0xEB, 0xEC, 0xED, 0xF4, 0xFC, 0xFD]

/-- An opcode the decoder supports. -/
def Supported (op : Nat) : Prop :=
  op ∉ illegalOpcodes

instance (op : Nat) : Decidable (Supported op) := by
  unfold Supported
  infer_instance

/-- Spec-side: the pixel-merge rule as the specification states it, with
its four conditions tested in the spec's order. -/
def mergeSpec (lcdc : Nat) (bg : Pixel) (sprite : Option Pixel) : Pixel :=
  match sprite with
  | none => bg
  | some s =>
      if get_bit lcdc 0 = 0 then s
      else if get_bit lcdc 1 = 0 then bg
      else if s.color = 0 then bg
      else if s.priority ∧ bg.color ≠ 0 then bg
      else s

/-! Concrete fixtures used by witnesses and counterexamples. -/

/-- A joypad with every button released and nothing selected. -/
def inputIdle : Input :=
  { select_button_keys := false
    select_direction_keys := false
    a := false, b := false, start := false, select := false
    up := false, down := false, left := false, right := false }

/-- A joypad with only the Down button pressed. -/
def inputDown : Input :=
  { inputIdle with down := true }

/-- An MBC1 cartridge MMU whose external-RAM window holds 0x42 at 0xA000,
with external RAM currently disabled. -/
def mmuRam : Mmu :=
  { memory := fun a => if a = 0xA000 then 0x42 else 0
    total_rom := fun _ => 0
    total_ram := fun _ => 0
    ram_bank := 0
    mbc := MBC.MBC1
    input := inputIdle
    has_external_ram := true
    enable_external_ram := false }

/-- The memory backing of `lineMem`. -/
def lineMemF (ly : Nat) : Nat → Nat :=
  fun a => if a = LY then ly else if a = LYC then 200 else if a = WY then 200 else 0

/-- A memory state on scanline `ly` with every PPU register except LY
zeroed (STAT sources disarmed, window disabled) and LYC, WY parked at 200
so that neither the coincidence bit nor the window counter fires while
`ly` stays below 177. -/
def lineMem (ly : Nat) : Mmu :=
  { memory := lineMemF ly
    total_rom := fun _ => 0
    total_ram := fun _ => 0
    ram_bank := 0
    mbc := MBC.None
    input := inputIdle
    has_external_ram := false
    enable_external_ram := false }

/-- `lineMem 0` after the frame's single VBLANK interrupt has been raised
(IF bit 0 set). -/
def frameEndMem : Mmu :=
  { lineMem 0 with
    memory := fun a => if a = 0xFF0F then 1 else lineMemF 0 a }

/-- The PPU state at a scanline boundary: entering OAM_SCAN with an empty
cycle counter, extra-cycle accumulator `d`, and LX reset. -/
def lineStart (d : Int) : PpuState :=
  { mode := PPUMode.OAMSearch
    cycle_counter := 0
    mode3_extra_cycles := d
    lx := 0
    window_counter := 0
    tall_sprites := false }

/-- The cycle schedule of `n` scanlines, feeding each mode of each line
exactly the cycle count it consumes when `draw_line` reports no extra
cycles. -/
def linesSched : Nat → List Int
  | 0 => []
  | n + 1 => linesSched n ++ [80, 172, 289]

/-- The cycle schedule of one full frame under a zero extra-cycle oracle:
177 scanlines (LY = 0 … 176) followed by the single 456-cycle VBLANK
period. -/
def frameSchedule : List Int :=
  linesSched 177 ++ [456]

/-- The post-reset CPU state (`Cpu::default` from src/cpu.rs). -/
def cpuInit : Cpu :=
  { registers := { a := 0x01, b := 0x00, c := 0x13, d := 0x00, e := 0xD8, h := 0x01, l := 0x4D }
    flags := { z := true, n := false, h := true, c := true }
    pc := 0x0100
    sp := 0xFFFE
    ime := false
    ime_delay := false
    halted := false
    stopped := false
    clock_cycles := 0 }

/-- A memory image that is all zero (so the byte at every PC is NOP). -/
def memZero : Mmu :=
  { memory := fun _ => 0
    total_rom := fun _ => 0
    total_ram := fun _ => 0
    ram_bank := 0
    mbc := MBC.None
    input := inputIdle
    has_external_ram := false
    enable_external_ram := false }

/-- `memZero` with the five-bit interrupt mask `if5` in IF (0xFF0F) and
`ie` in IE (0xFFFF). -/
def memIrq (if5 ie : Nat) : Mmu :=
  { memZero with
    memory := fun a => if a = 0xFF0F then if5 else if a = 0xFFFF then ie else 0 }

/-- A stack address in plain memory: high enough to miss the MBC control
ranges, outside the gated external-RAM window, and none of the write
side-effect registers (0xFF00, 0xFF04, 0xFF46) nor IF (0xFF0F). -/
def StackAddrOk (a : Nat) : Prop :=
  0x8000 ≤ a ∧ ¬ (0xA000 ≤ a ∧ a ≤ 0xBFFF) ∧
  a ≠ 0xFF00 ∧ a ≠ 0xFF04 ∧ a ≠ 0xFF46 ∧ a ≠ 0xFF0F

instance (a : Nat) : Decidable (StackAddrOk a) := by
  unfold StackAddrOk
  infer_instance

/-! Theorems. -/

/-- `usub` agrees with truncated subtraction in range. -/
theorem usub_eq_sub (x y : Nat) (h1 : y ≤ x) (h2 : x ≤ 0xFFFF) (h3 : y ≤ 2) :
    usub x y = x - y := by
  unfold usub
  omega

/-- Writes to a plain address take the default arm of `Mmu::set`. -/
theorem set_plain (m : Mmu) (a v : Nat) (h : StackAddrOk a) :
    m.set a v = { m with memory := store m.memory a v } := by
  obtain ⟨h1, h2, h3, h4, h5, _⟩ := h
  have c1 : ¬ a ≤ 0x1FFF := by omega
  have c2 : ¬ a ≤ 0x3FFF := by omega
  have c3 : ¬ a ≤ 0x5FFF := by omega
  simp [Mmu.set, c1, c2, c3, h2, h3, h4, h5]

/-- Reads outside the gated window and 0xFF00 return the raw byte. -/
theorem get_plain (m : Mmu) (a : Nat) (h1 : ¬ (0xA000 ≤ a ∧ a ≤ 0xBFFF))
    (h2 : a ≠ 0xFF00) : m.get a = m.memory a := by
  simp [Mmu.get, h1, h2]

/-- Writes to IF (0xFF0F) take the default arm of `Mmu::set`. -/
theorem set_ff0f (m : Mmu) (v : Nat) :
    m.set 0xFF0F v = { m with memory := store m.memory 0xFF0F v } := by
  norm_num [Mmu.set]

/-- Folding `hi_step` with IME off only clears HALT (when the list is
nonempty) and dispatches nothing. -/
theorem hi_fold_ime_false (l : List Interrupt) (cpu : Cpu) (mem : Mmu) (k : Nat)
    (h : cpu.ime = false) :
    l.foldl hi_step (cpu, mem, k) =
      ((if l.isEmpty then cpu else { cpu with halted := false }), mem, k) := by
  induction l generalizing cpu with
  | nil => simp
  | cons i rest ih =>
    have hstep : hi_step (cpu, mem, k) i = ({ cpu with halted := false }, mem, k) := by
      simp [hi_step, h]
    rw [List.foldl_cons, hstep, ih { cpu with halted := false } h]
    cases rest <;> simp

/-- Folding `hi_step` with IME on dispatches exactly the first pending line
that is enabled (when one exists), and nothing otherwise. -/
theorem hi_fold_ime_true (l : List Interrupt) (cpu : Cpu) (mem : Mmu) (k : Nat)
    (h : cpu.ime = true) :
    l.foldl hi_step (cpu, mem, k) =
      match l.find? (fun i => i.enabled mem) with
      | none => ((if l.isEmpty then cpu else { cpu with halted := false }), mem, k)
      | some j =>
          ((handle_interrupt { cpu with halted := false } mem j).1,
           (handle_interrupt { cpu with halted := false } mem j).2, k + 1) := by
  have hcol : ∀ (x : Cpu), x.halted = false → ({ x with halted := false } : Cpu) = x := by
    intro x hx
    cases x
    simp_all
  induction l generalizing cpu k with
  | nil => simp
  | cons i rest ih =>
    cases he : Interrupt.enabled i mem with
    | true =>
      have hstep : hi_step (cpu, mem, k) i =
          ((handle_interrupt { cpu with halted := false } mem i).1,
           (handle_interrupt { cpu with halted := false } mem i).2, k + 1) := by
        simp [hi_step, h, he]
      have hime : (handle_interrupt { cpu with halted := false } mem i).1.ime = false := rfl
      have hfind : List.find? (fun x => x.enabled mem) (i :: rest) = some i :=
        List.find?_cons_of_pos rest (by simpa using he)
      rw [List.foldl_cons, hstep, hi_fold_ime_false rest _ _ _ hime, hfind]
      have hhalt : (handle_interrupt { cpu with halted := false } mem i).1.halted = false := rfl
      rw [hcol _ hhalt]
      cases rest <;> simp
    | false =>
      have hstep : hi_step (cpu, mem, k) i = ({ cpu with halted := false }, mem, k) := by
        simp [hi_step, he]
      have hfind : List.find? (fun x => x.enabled mem) (i :: rest) =
          List.find? (fun x => x.enabled mem) rest :=
        List.find?_cons_of_neg rest (by simp [he])
      rw [List.foldl_cons, hstep, ih { cpu with halted := false } k h, hfind]
      cases hf : List.find? (fun x => x.enabled mem) rest with
      | none => cases rest <;> simp [hcol _ (rfl : ({ cpu with halted := false } : Cpu).halted = false)]
      | some j => simp [hcol _ (rfl : ({ cpu with halted := false } : Cpu).halted = false)]

/-- The HALT flag after `handle_interrupts`: cleared exactly when some line
was pending, regardless of IME and IE. -/
theorem hi_halted (cpu : Cpu) (mem : Mmu) :
    (handle_interrupts cpu mem).1.halted =
      (if (get_interrupts mem).isEmpty then cpu.halted else false) := by
  unfold handle_interrupts
  cases him : cpu.ime with
  | false =>
    rw [hi_fold_ime_false _ _ _ _ him]
    cases h : (get_interrupts mem).isEmpty <;> simp [h]
  | true =>
    rw [hi_fold_ime_true _ _ _ _ him]
    cases hf : (get_interrupts mem).find? (fun i => i.enabled mem) with
    | none =>
      cases h : (get_interrupts mem).isEmpty <;> simp [h]
    | some j =>
      have hne : (get_interrupts mem).isEmpty = false := by
        cases hl : get_interrupts mem with
        | nil => rw [hl] at hf; simp at hf
        | cons _ _ => simp
      simp [hne, handle_interrupt]

/-- C10 counterexample: with HALT set, IF = 0x20 (a set bit outside the
five interrupt lines) and nothing enabled, `handle_interrupts` leaves HALT
set although IF is nonzero — the claim predicts HALT is cleared whenever
any bit of IF is set. -/
theorem halt_wake_cex :
    (handle_interrupts { cpuInit with halted := true } (memIrq 0x20 0x00)).1.halted = true ∧
    (memIrq 0x20 0x00).get 0xFF0F ≠ 0 := by
  refine ⟨rfl, by decide⟩

/-- C10 amended: with the HALT flag set, a call to `handle_interrupts`
clears HALT if and only if at least one of the five interrupt-line bits
(mask 0x1F) of IF (0xFF0F) is set — even when the corresponding IE bit is
clear and even when IME is false; when none of those five bits is set
(in particular when IF is zero), HALT remains set. -/
theorem halt_wake_iff_low5 (cpu : Cpu) (mem : Mmu) (h : cpu.halted = true) :
    (handle_interrupts cpu mem).1.halted = false ↔
      (mem.get 0xFF0F &&& 0b00001 ≠ 0 ∨ mem.get 0xFF0F &&& 0b00010 ≠ 0 ∨
       mem.get 0xFF0F &&& 0b00100 ≠ 0 ∨ mem.get 0xFF0F &&& 0b01000 ≠ 0 ∨
       mem.get 0xFF0F &&& 0b10000 ≠ 0) := by
  rw [hi_halted]
  by_cases h1 : mem.get 0xFF0F &&& 0b00001 ≠ 0 <;>
    by_cases h2 : mem.get 0xFF0F &&& 0b00010 ≠ 0 <;>
      by_cases h3 : mem.get 0xFF0F &&& 0b00100 ≠ 0 <;>
        by_cases h4 : mem.get 0xFF0F &&& 0b01000 ≠ 0 <;>
          by_cases h5 : mem.get 0xFF0F &&& 0b10000 ≠ 0 <;>
            simp [get_interrupts, h1, h2, h3, h4, h5, h]

/-- Witness for `halt_wake_iff_low5`: a halted CPU with IF = 0x04 wakes. -/
theorem halt_wake_iff_low5_w :
    ((handle_interrupts { cpuInit with halted := true } (memIrq 0x04 0x00)).1.halted = false ↔
      ((memIrq 0x04 0x00).get 0xFF0F &&& 0b00001 ≠ 0 ∨
       (memIrq 0x04 0x00).get 0xFF0F &&& 0b00010 ≠ 0 ∨
       (memIrq 0x04 0x00).get 0xFF0F &&& 0b00100 ≠ 0 ∨
       (memIrq 0x04 0x00).get 0xFF0F &&& 0b01000 ≠ 0 ∨
       (memIrq 0x04 0x00).get 0xFF0F &&& 0b10000 ≠ 0)) :=
  halt_wake_iff_low5 { cpuInit with halted := true } (memIrq 0x04 0x00) rfl

/-- C4: one `handle_interrupts` call performs at most one dispatch, and
when IME is set and some pending line is enabled, the dispatched line is
the first pending-and-enabled one in the priority order VBLANK, LCD_STAT,
TIMER, SERIAL, JOYPAD (the order `get_interrupts` lists pending lines),
loading its vector into PC. -/
theorem handle_interrupts_at_most_one (cpu : Cpu) (mem : Mmu) :
    (handle_interrupts cpu mem).2.2 ≤ 1 ∧
    (cpu.ime = true → ∀ j, (get_interrupts mem).find? (fun i => i.enabled mem) = some j →
      (handle_interrupts cpu mem).2.2 = 1 ∧ (handle_interrupts cpu mem).1.pc = j.address) := by
  unfold handle_interrupts
  cases him : cpu.ime with
  | false =>
    rw [hi_fold_ime_false _ _ _ _ him]
    refine ⟨by simp, ?_⟩
    intro h
    simp [him] at h
  | true =>
    rw [hi_fold_ime_true _ _ _ _ him]
    cases hf : (get_interrupts mem).find? (fun i => i.enabled mem) with
    | none =>
      refine ⟨by simp, ?_⟩
      intro _ j hj
      exact absurd hj (by simp)
    | some j0 =>
      refine ⟨by simp, ?_⟩
      intro _ j hj
      cases hj
      exact ⟨by simp, by simp [handle_interrupt]⟩

/-- Witness for `handle_interrupts_at_most_one`: LCD_STAT and TIMER are
pending, only TIMER is enabled, so the single dispatch targets 0x50. -/
theorem handle_interrupts_at_most_one_w :
    (handle_interrupts { cpuInit with ime := true } (memIrq 0x06 0x04)).2.2 = 1 ∧
    (handle_interrupts { cpuInit with ime := true } (memIrq 0x06 0x04)).1.pc =
      Interrupt.address Interrupt.Timer :=
  (handle_interrupts_at_most_one { cpuInit with ime := true } (memIrq 0x06 0x04)).2
    rfl Interrupt.Timer (by decide)

/-- Clearing a bit with the mask `0xFF ^^^ (1 <<< p)` really clears it. -/
theorem testBit_clear_mask (x p : Nat) (hp : p < 8) :
    Nat.testBit (x &&& (0xFF ^^^ (1 <<< p))) p = false := by
  rw [Nat.testBit_land]
  have hm : Nat.testBit (0xFF ^^^ (1 <<< p)) p = false := by
    interval_cases p <;> decide
  simp [hm]

/-- C5: when IME is set and `j` is the first line pending in IF and enabled
in IE, `handle_interrupts` services it: IME is cleared, SP drops by 2, PC's
low byte lands at the new SP and its high byte at SP+1, PC is loaded from
the vector table {VBLANK 0x40, LCD_STAT 0x48, TIMER 0x50, SERIAL 0x58,
JOYPAD 0x60}, and the line's IF bit is cleared. The stack bytes are
required to lie in plain memory (an interrupt fired with SP pointed at an
MBC control range or an I/O side-effect register would not store them). -/
theorem interrupt_dispatch_effects (cpu : Cpu) (mem : Mmu) (j : Interrupt)
    (him : cpu.ime = true)
    (hfind : (get_interrupts mem).find? (fun i => i.enabled mem) = some j)
    (hsp1 : 2 ≤ cpu.sp) (hsp2 : cpu.sp ≤ 0xFFFF)
    (hs2 : StackAddrOk (cpu.sp - 2)) (hs1 : StackAddrOk (cpu.sp - 1)) :
    (handle_interrupts cpu mem).1.ime = false ∧
    (handle_interrupts cpu mem).1.sp = cpu.sp - 2 ∧
    (handle_interrupts cpu mem).1.pc = j.address ∧
    (handle_interrupts cpu mem).2.1.get (cpu.sp - 2) = cpu.pc &&& 0xFF ∧
    (handle_interrupts cpu mem).2.1.get (cpu.sp - 1) = (cpu.pc >>> 8) &&& 0xFF ∧
    Nat.testBit ((handle_interrupts cpu mem).2.1.get 0xFF0F) j.priority = false ∧
    (Interrupt.address Interrupt.VBlank = 0x40 ∧ Interrupt.address Interrupt.LcdStat = 0x48 ∧
     Interrupt.address Interrupt.Timer = 0x50 ∧ Interrupt.address Interrupt.Serial = 0x58 ∧
     Interrupt.address Interrupt.Joypad = 0x60) := by
  have hrw : handle_interrupts cpu mem =
      ((handle_interrupt { cpu with halted := false } mem j).1,
       (handle_interrupt { cpu with halted := false } mem j).2, 1) := by
    unfold handle_interrupts
    rw [hi_fold_ime_true _ _ _ _ him, hfind]
  have hu2 : usub cpu.sp 2 = cpu.sp - 2 := usub_eq_sub _ _ hsp1 hsp2 (by omega)
  have hmod2 : (cpu.sp - 2) % 65536 = cpu.sp - 2 := by omega
  have hone2 : cpu.sp - 2 + 1 = cpu.sp - 1 := by omega
  have hexp : handle_interrupt { cpu with halted := false } mem j =
      ({ cpu with halted := false, ime := false, sp := cpu.sp - 2, pc := j.address },
       ((j.clear mem).set (cpu.sp - 2) (cpu.pc &&& 0xFF)).set (cpu.sp - 1)
         ((cpu.pc >>> 8) &&& 0xFF)) := by
    unfold handle_interrupt
    simp only [hu2, hmod2, hone2]
  rw [hrw, hexp]
  have hne21 : cpu.sp - 2 ≠ cpu.sp - 1 := by omega
  have hcl : (j.clear mem).memory 0xFF0F =
      mem.get 0xFF0F &&& (0xFF ^^^ (1 <<< j.priority)) := by
    unfold Interrupt.clear
    rw [set_ff0f]
    simp [store]
  refine ⟨rfl, rfl, rfl, ?_, ?_, ?_, by decide⟩
  · rw [set_plain _ _ _ hs1, get_plain _ _ hs2.2.1 hs2.2.2.1]
    simp only [store, if_neg hne21]
    rw [set_plain _ _ _ hs2]
    simp [store]
  · rw [set_plain _ _ _ hs1, get_plain _ _ hs1.2.1 hs1.2.2.1]
    simp [store]
  · have hf0 : ¬ (0xA000 ≤ 0xFF0F ∧ 0xFF0F ≤ 0xBFFF) := by omega
    have hf1 : (0xFF0F : Nat) ≠ 0xFF00 := by omega
    rw [set_plain _ _ _ hs1, get_plain _ _ hf0 hf1]
    simp only [store, if_neg (Ne.symm hs1.2.2.2.2.2)]
    rw [set_plain _ _ _ hs2]
    simp only [store, if_neg (Ne.symm hs2.2.2.2.2.2)]
    rw [hcl]
    exact testBit_clear_mask _ _ (by cases j <;> decide)

/-- Witness for `interrupt_dispatch_effects` with TIMER pending and
enabled, SP = 0xFFFE and PC = 0x0100. -/
theorem interrupt_dispatch_effects_w :
    (handle_interrupts { cpuInit with ime := true } (memIrq 0x04 0x04)).1.ime = false ∧
    (handle_interrupts { cpuInit with ime := true } (memIrq 0x04 0x04)).1.sp =
      { cpuInit with ime := true }.sp - 2 ∧
    (handle_interrupts { cpuInit with ime := true } (memIrq 0x04 0x04)).1.pc =
      Interrupt.Timer.address ∧
    (handle_interrupts { cpuInit with ime := true } (memIrq 0x04 0x04)).2.1.get
      ({ cpuInit with ime := true }.sp - 2) = { cpuInit with ime := true }.pc &&& 0xFF ∧
    (handle_interrupts { cpuInit with ime := true } (memIrq 0x04 0x04)).2.1.get
      ({ cpuInit with ime := true }.sp - 1) =
      ({ cpuInit with ime := true }.pc >>> 8) &&& 0xFF ∧
    Nat.testBit
      ((handle_interrupts { cpuInit with ime := true } (memIrq 0x04 0x04)).2.1.get 0xFF0F)
      Interrupt.Timer.priority = false ∧
    (Interrupt.address Interrupt.VBlank = 0x40 ∧ Interrupt.address Interrupt.LcdStat = 0x48 ∧
     Interrupt.address Interrupt.Timer = 0x50 ∧ Interrupt.address Interrupt.Serial = 0x58 ∧
     Interrupt.address Interrupt.Joypad = 0x60) :=
  interrupt_dispatch_effects { cpuInit with ime := true } (memIrq 0x04 0x04) Interrupt.Timer
    rfl (by decide) (by decide) (by decide) (by decide) (by decide)

/-- C7: after any write of any value to 0xFF04 (DIV) through `Mmu::set`, an
immediately following read of 0xFF04 yields 0, for every MMU state and
every written value. -/
theorem div_reset_on_write (m : Mmu) (v : Nat) : (m.set 0xFF04 v).get 0xFF04 = 0 := by
  simp [Mmu.set, Mmu.get, store]

/-- C6 counterexample: writing 0x1A (whose low nibble is 0xA) to the RAM
enable range leaves external RAM disabled, so a read of 0xA000 yields 0xFF
and not the stored byte 0x42 — the claim's `v &&& 0x0F = 0x0A` condition
predicts the stored byte. -/
theorem ram_enable_cex :
    (mmuRam.set 0x0000 0x1A).get 0xA000 = 0xFF ∧
    0x1A &&& 0x0F = 0x0A ∧
    mmuRam.memory 0xA000 = 0x42 ∧
    (0xFF : Nat) ≠ 0x42 := by
  refine ⟨rfl, by decide, rfl, by decide⟩

/-- C6 amended: for a cartridge MMU, after a write of `v` to
0x0000–0x1FFF, a read of any address in 0xA000–0xBFFF returns the stored
RAM byte if and only if `v` is exactly 0x0A (not merely `v &&& 0x0F =
0x0A`), and returns 0xFF otherwise; writes to 0xA000–0xBFFF are ignored
while external RAM is disabled. -/
theorem ram_enable_exact_byte :
    (∀ (m : Mmu) (v a0 a : Nat), a0 ≤ 0x1FFF → 0xA000 ≤ a → a ≤ 0xBFFF →
      (m.set a0 v).get a = if v = 0x0A then m.memory a else 0xFF) ∧
    (∀ (m : Mmu) (w a : Nat), 0xA000 ≤ a → a ≤ 0xBFFF →
      m.enable_external_ram = false → (m.set a w).memory a = m.memory a) := by
  constructor
  · intro m v a0 a h0 ha1 ha2
    simp only [Mmu.set, if_pos h0, Mmu.get, if_pos (And.intro ha1 ha2)]
    by_cases hv : v = 0x0A <;> simp [hv]
  · intro m w a ha1 ha2 hen
    have h1 : ¬ (a ≤ 0x1FFF) := by omega
    have h2 : ¬ (a ≤ 0x3FFF) := by omega
    have h3 : ¬ (a ≤ 0x5FFF) := by omega
    simp [Mmu.set, h1, h2, h3, ha1, ha2, hen]

/-- Witness for `ram_enable_exact_byte` at concrete inputs. -/
theorem ram_enable_exact_byte_w :
    ((mmuRam.set 0x0000 0x0A).get 0xA000 =
      if (0x0A : Nat) = 0x0A then mmuRam.memory 0xA000 else 0xFF) ∧
    ((mmuRam.set 0xA000 0x07).memory 0xA000 = mmuRam.memory 0xA000) :=
  ⟨ram_enable_exact_byte.1 mmuRam 0x0A 0x0000 0xA000 (by decide) (by decide) (by decide),
   ram_enable_exact_byte.2 mmuRam 0x07 0xA000 (by decide) (by decide) rfl⟩

/-- C8 counterexample: with no buttons pressed, writing 0x10 to 0xFF00 and
reading back yields 0xCF (the composed byte starts from base 0xCF, whose
bits 5–4 are already clear), not the 0x1F the claim states. -/
theorem joypad_cex :
    (memZero.set 0xFF00 0x10).get 0xFF00 = 0xCF ∧ (0xCF : Nat) ≠ 0x1F := by
  refine ⟨rfl, by decide⟩

/-- C8 amended: a read of 0xFF00 is composed from the base byte 0xCF
(bits 7–6 set, selector bits 5–4 reading 0), clearing the bit of each
pressed button in a selected matrix half; writing selects the buttons half
when bit 5 of the written value is clear and the directions half when bit 4
is clear. Hence with no buttons pressed every read returns 0xCF (not
0x1F/0x2F); with Down pressed, writing 0x10 (directions deselected) still
reads 0xCF, while writing 0x20 reads 0xC7. -/
theorem joypad_read_from_base_cf :
    (∀ (m : Mmu) (w : Nat),
      (m.set 0xFF00 w).get 0xFF00 = (m.input.write_ff00 w).read_ff00) ∧
    (∀ (sb sd : Bool) (w : Nat),
      (Input.write_ff00
        { inputIdle with select_button_keys := sb, select_direction_keys := sd }
        w).read_ff00 = 0xCF) ∧
    (Input.write_ff00 inputDown 0x10).read_ff00 = 0xCF ∧
    (Input.write_ff00 inputDown 0x20).read_ff00 = 0xC7 := by
  refine ⟨?_, ?_, by decide, by decide⟩
  · intro m w
    simp [Mmu.set, Mmu.get]
  · intro sb sd w
    simp only [Input.write_ff00, Input.read_ff00, inputIdle]
    cases h5 : w &&& (1 <<< 5) == 0 <;> cases h4 : w &&& (1 <<< 4) == 0 <;> simp <;> decide

/-- C9: the pixel-merge function agrees everywhere with the
specification's rule: sprite wins when LCDC bit 0 is clear; else background
when LCDC bit 1 is clear; else background on transparent sprite color;
else background when the sprite priority bit is set and the background
color is nonzero; otherwise the sprite wins. -/
theorem merge_pixels_follows_spec (mem : Mmu) (bg : Pixel) (s : Option Pixel) :
    merge_pixels mem bg s = mergeSpec (mem.get LCDC) bg s := by
  rcases s with _ | s
  · rfl
  · simp only [merge_pixels, mergeSpec]
    by_cases h0 : get_bit (mem.get LCDC) 0 = 0
    · simp [h0]
    · by_cases h1 : get_bit (mem.get LCDC) 1 = 0
      · simp [h0, h1]
      · by_cases hc : s.color = 0 <;> by_cases hp : s.priority ∧ bg.color ≠ 0 <;>
          simp [h0, h1, hc, hp]

/-- Structure extensionality for `Mmu`. -/
theorem mmu_eq (m1 m2 : Mmu) (h1 : m1.memory = m2.memory) (h2 : m1.total_rom = m2.total_rom)
    (h3 : m1.total_ram = m2.total_ram) (h4 : m1.ram_bank = m2.ram_bank)
    (h5 : m1.mbc = m2.mbc) (h6 : m1.input = m2.input)
    (h7 : m1.has_external_ram = m2.has_external_ram)
    (h8 : m1.enable_external_ram = m2.enable_external_ram) : m1 = m2 := by
  cases m1
  cases m2
  simp_all

theorem lineMem_get_STAT (ly : Nat) : (lineMem ly).get STAT = 0 := by
  norm_num [Mmu.get, lineMem, lineMemF, STAT, LY, LYC, WY]

theorem lineMem_get_LY (ly : Nat) : (lineMem ly).get LY = ly := by
  norm_num [Mmu.get, lineMem, lineMemF, LY]

theorem lineMem_get_LYC (ly : Nat) : (lineMem ly).get LYC = 200 := by
  norm_num [Mmu.get, lineMem, lineMemF, LYC, LY]

theorem lineMem_get_LCDC (ly : Nat) : (lineMem ly).get LCDC = 0 := by
  norm_num [Mmu.get, lineMem, lineMemF, LCDC, LY, LYC, WY]

theorem lineMem_get_WY (ly : Nat) : (lineMem ly).get WY = 200 := by
  norm_num [Mmu.get, lineMem, lineMemF, WY, LY, LYC]

theorem lineMem_get_IF (ly : Nat) : (lineMem ly).get 0xFF0F = 0 := by
  norm_num [Mmu.get, lineMem, lineMemF, LY, LYC, WY]

theorem lineMem_set_STAT0 (ly : Nat) : (lineMem ly).set STAT 0 = lineMem ly := by
  refine mmu_eq _ _ ?_ rfl rfl rfl rfl rfl rfl rfl
  show ((lineMem ly).set STAT 0).memory = (lineMem ly).memory
  norm_num [Mmu.set, STAT]
  funext x
  by_cases hx : x = 0xFF41 <;> norm_num [store, lineMem, lineMemF, hx, LY, LYC, WY]

theorem lineMem_set_LY (ly v : Nat) : (lineMem ly).set LY v = lineMem v := by
  refine mmu_eq _ _ ?_ rfl rfl rfl rfl rfl rfl rfl
  show ((lineMem ly).set LY v).memory = (lineMem v).memory
  norm_num [Mmu.set, LY]
  funext x
  by_cases hx : x = 0xFF44 <;> norm_num [store, lineMem, lineMemF, hx, LY, LYC, WY]


/-- On `lineMem`, `stat_interrupt` changes nothing: the coincidence bit
stays clear (LYC is parked at 200) and no STAT source is armed. -/
theorem stat_lineMem (ly : Nat) (h200 : ly ≠ 200) :
    stat_interrupt (lineMem ly) = lineMem ly := by
  unfold stat_interrupt
  rw [lineMem_get_STAT, lineMem_get_LY, lineMem_get_LYC]
  simp only [h200, if_false, eq_self_iff_true,
    show ((0 : Nat) &&& 3) = 0 from rfl, show ((0 : Nat) >>> 5 &&& 1) = 0 from rfl,
    show ((0 : Nat) >>> 4 &&& 1) = 0 from rfl, show ((0 : Nat) >>> 3 &&& 1) = 0 from rfl,
    show ((0 : Nat) >>> 6 &&& 1) = 0 from rfl, show ((0 : Nat) &&& 251 ||| 0) = 0 from rfl]
  simp only [show ((0 : Nat) ≠ 0) = False from by simp, and_false, if_false]
  exact lineMem_set_STAT0 ly

/-- One OAM_SCAN phase on `lineMem`: consumes exactly 80 cycles. -/
theorem renderStep_oam (d : Int) (ly w : Nat) (t : Bool) (h200 : ly ≠ 200) :
    renderStep d
      { mode := PPUMode.OAMSearch, cycle_counter := 0, mode3_extra_cycles := d,
        lx := 0, window_counter := w, tall_sprites := t } (lineMem ly) 80 =
    ({ mode := PPUMode.PixelTransfer, cycle_counter := 0, mode3_extra_cycles := d,
       lx := 0, window_counter := w, tall_sprites := false }, lineMem ly, false) := by
  unfold renderStep
  rw [stat_lineMem ly h200]
  dsimp only
  rw [lineMem_get_LCDC]
  norm_num [get_bit]

/-- One PIXEL_TRANSFER phase on `lineMem` whose `draw_line` oracle reports
`d` extra cycles: consumes exactly 172 + d cycles. -/
theorem renderStep_pt (d : Int) (ly w : Nat) (h200 : ly ≠ 200) :
    renderStep d
      { mode := PPUMode.PixelTransfer, cycle_counter := 0, mode3_extra_cycles := d,
        lx := 0, window_counter := w, tall_sprites := false } (lineMem ly) (172 + d) =
    ({ mode := PPUMode.HBlank, cycle_counter := 0, mode3_extra_cycles := d,
       lx := 0, window_counter := w, tall_sprites := false }, lineMem ly, false) := by
  unfold renderStep
  rw [stat_lineMem ly h200]
  dsimp only
  norm_num

/-- One HBLANK phase on `lineMem` below the VBlank boundary: consumes
exactly 289 − d cycles (not 204 − d) and advances LY. -/
theorem renderStep_hb (d : Int) (ly w : Nat) (hly : ly < 176) :
    renderStep d
      { mode := PPUMode.HBlank, cycle_counter := 0, mode3_extra_cycles := d,
        lx := 0, window_counter := w, tall_sprites := false } (lineMem ly) (289 - d) =
    ({ mode := PPUMode.OAMSearch, cycle_counter := 0, mode3_extra_cycles := d,
       lx := 0, window_counter := w, tall_sprites := false }, lineMem (ly + 1), false) := by
  unfold renderStep
  rw [stat_lineMem ly (by omega)]
  dsimp only
  rw [lineMem_get_WY, lineMem_get_LY, lineMem_get_LCDC]
  norm_num [get_bit]
  rw [if_neg (show ¬ ly = 176 by omega), lineMem_set_LY]


theorem renderStep_pt0 (ly w : Nat) (h200 : ly ≠ 200) :
    renderStep 0
      { mode := PPUMode.PixelTransfer, cycle_counter := 0, mode3_extra_cycles := 0,
        lx := 0, window_counter := w, tall_sprites := false } (lineMem ly) 172 =
    ({ mode := PPUMode.HBlank, cycle_counter := 0, mode3_extra_cycles := 0,
       lx := 0, window_counter := w, tall_sprites := false }, lineMem ly, false) := by
  have h := renderStep_pt 0 ly w h200
  norm_num at h
  exact h

theorem renderStep_hb0 (ly w : Nat) (hly : ly < 176) :
    renderStep 0
      { mode := PPUMode.HBlank, cycle_counter := 0, mode3_extra_cycles := 0,
        lx := 0, window_counter := w, tall_sprites := false } (lineMem ly) 289 =
    ({ mode := PPUMode.OAMSearch, cycle_counter := 0, mode3_extra_cycles := 0,
       lx := 0, window_counter := w, tall_sprites := false }, lineMem (ly + 1), false) := by
  have h := renderStep_hb 0 ly w hly
  norm_num at h
  exact h

/-- The HBLANK phase of the line with LY = 176 enters VBLANK and zeroes
LY. -/
theorem renderStep_hb176 (w : Nat) :
    renderStep 0
      { mode := PPUMode.HBlank, cycle_counter := 0, mode3_extra_cycles := 0,
        lx := 0, window_counter := w, tall_sprites := false } (lineMem 176) 289 =
    ({ mode := PPUMode.VBlank, cycle_counter := 0, mode3_extra_cycles := 0,
       lx := 0, window_counter := w, tall_sprites := false }, lineMem 0, false) := by
  unfold renderStep
  rw [stat_lineMem 176 (by omega)]
  dsimp only
  rw [lineMem_get_WY, lineMem_get_LY, lineMem_get_LCDC]
  norm_num [get_bit]
  rw [lineMem_set_LY]

/-- Raising VBLANK on `lineMem 0` sets IF bit 0. -/
theorem trigger_lineMem0 : Interrupt.VBlank.trigger (lineMem 0) = frameEndMem := by
  unfold Interrupt.trigger
  rw [lineMem_get_IF]
  refine mmu_eq _ _ ?_ rfl rfl rfl rfl rfl rfl rfl
  norm_num [Mmu.set]
  funext x
  by_cases hx : x = 0xFF0F <;>
    norm_num [store, frameEndMem, lineMem, lineMemF, hx, LY, LYC, WY, Interrupt.priority]

/-- The single 456-cycle VBLANK period: returns to OAM_SCAN, zeroes the
window counter, and raises the VBLANK interrupt (the `true` result). -/
theorem renderStep_vblank (w : Nat) :
    renderStep 0
      { mode := PPUMode.VBlank, cycle_counter := 0, mode3_extra_cycles := 0,
        lx := 0, window_counter := w, tall_sprites := false } (lineMem 0) 456 =
    ({ mode := PPUMode.OAMSearch, cycle_counter := 0, mode3_extra_cycles := 0,
       lx := 0, window_counter := 0, tall_sprites := false }, frameEndMem, true) := by
  unfold renderStep
  rw [stat_lineMem 0 (by omega)]
  dsimp only
  rw [lineMem_set_LY, trigger_lineMem0]
  norm_num

theorem renderRun_append (d : Int) (l1 l2 : List Int) (p : PpuState) (mem : Mmu) (k : Nat) :
    renderRun d (l1 ++ l2) p mem k =
      renderRun d l2 (renderRun d l1 p mem k).1 (renderRun d l1 p mem k).2.1
        (renderRun d l1 p mem k).2.2 := by
  induction l1 generalizing p mem k with
  | nil => rfl
  | cons c rest ih => simp [renderRun, ih]

/-- `n` scanlines starting at LY = `ly` (all below the VBlank boundary)
advance LY by `n` and return to the same per-line state. -/
theorem lines_run (n ly k : Nat) (h : ly + n ≤ 176) :
    renderRun 0 (linesSched n)
      { mode := PPUMode.OAMSearch, cycle_counter := 0, mode3_extra_cycles := 0,
        lx := 0, window_counter := 0, tall_sprites := false } (lineMem ly) k =
      ({ mode := PPUMode.OAMSearch, cycle_counter := 0, mode3_extra_cycles := 0,
         lx := 0, window_counter := 0, tall_sprites := false }, lineMem (ly + n), k) := by
  induction n generalizing k with
  | zero => simp [linesSched, renderRun]
  | succ n ih =>
    have hn : ly + n ≤ 176 := by omega
    rw [linesSched, renderRun_append, ih k hn]
    show renderRun 0 [80, 172, 289] _ _ k = _
    unfold renderRun
    rw [renderStep_oam 0 (ly + n) 0 false (by omega)]
    unfold renderRun
    rw [renderStep_pt0 (ly + n) 0 (by omega)]
    unfold renderRun
    rw [renderStep_hb0 (ly + n) 0 (by omega)]
    unfold renderRun
    dsimp only
    simp only [Bool.false_eq_true, if_false, Nat.add_zero]
    rw [show ly + (n + 1) = ly + n + 1 from by omega]

theorem linesSched_sum (n : Nat) : (linesSched n).sum = 541 * n := by
  induction n with
  | zero => simp [linesSched]
  | succ n ih =>
    rw [linesSched, List.sum_append, ih]
    norm_num
    ring


/-- C2 counterexample: with a zero extra-cycle accumulator, an HBLANK
phase that has accumulated 204 cycles has not ended (the machine is still
in HBLANK); it ends only at 289 cycles. The claim's `204 − mode3_extra`
HBLANK length predicts the transition at 204. -/
theorem scanline_hblank_cex :
    (renderStep 0
      { mode := PPUMode.HBlank, cycle_counter := 0, mode3_extra_cycles := 0,
        lx := 0, window_counter := 0, tall_sprites := false } (lineMem 5) 204).1.mode =
      PPUMode.HBlank ∧
    (renderStep 0
      { mode := PPUMode.HBlank, cycle_counter := 0, mode3_extra_cycles := 0,
        lx := 0, window_counter := 0, tall_sprites := false } (lineMem 5) 289).1.mode =
      PPUMode.OAMSearch := by
  refine ⟨by decide, by decide⟩

/-- C2 amended: for every value `d` of the Mode-3 extra-cycle accumulator,
a visible scanline spends 80 cycles in OAM_SCAN, 172 + d cycles in
PIXEL_TRANSFER and 289 − d cycles in HBLANK — 541 cycles in total, not
456. -/
theorem scanline_total_541 (d : Int) (ly w : Nat) (t : Bool) (k : Nat) (hly : ly < 176) :
    renderRun d [80, 172 + d, 289 - d]
      { mode := PPUMode.OAMSearch, cycle_counter := 0, mode3_extra_cycles := d,
        lx := 0, window_counter := w, tall_sprites := t } (lineMem ly) k =
      ({ mode := PPUMode.OAMSearch, cycle_counter := 0, mode3_extra_cycles := d,
         lx := 0, window_counter := w, tall_sprites := false }, lineMem (ly + 1), k) ∧
    80 + (172 + d) + (289 - d) = (541 : Int) ∧ (541 : Int) ≠ 456 := by
  have h200 : ly ≠ 200 := by omega
  refine ⟨?_, by ring_nf, by norm_num⟩
  unfold renderRun
  rw [renderStep_oam d ly w t h200]
  unfold renderRun
  rw [renderStep_pt d ly w h200]
  unfold renderRun
  rw [renderStep_hb d ly w hly]
  unfold renderRun
  dsimp only
  simp only [Bool.false_eq_true, if_false, Nat.add_zero]

/-- Witness for `scanline_total_541` at `d = 0`, `ly = 0`. -/
theorem scanline_total_541_w :
    renderRun 0 [80, 172 + 0, 289 - 0]
      { mode := PPUMode.OAMSearch, cycle_counter := 0, mode3_extra_cycles := 0,
        lx := 0, window_counter := 0, tall_sprites := false } (lineMem 0) 0 =
      ({ mode := PPUMode.OAMSearch, cycle_counter := 0, mode3_extra_cycles := 0,
         lx := 0, window_counter := 0, tall_sprites := false }, lineMem (0 + 1), 0) :=
  (scanline_total_541 0 0 0 false 0 (by norm_num)).1

/-- C3 counterexample: finishing the scanline with LY = 144 does not enter
VBLANK — the machine goes back to OAM_SCAN with LY = 145 (VBLANK is
entered only when LY reaches 176). -/
theorem frame_vblank_entry_cex :
    (renderStep 0
      { mode := PPUMode.HBlank, cycle_counter := 0, mode3_extra_cycles := 0,
        lx := 0, window_counter := 0, tall_sprites := false } (lineMem 144) 289).1.mode =
      PPUMode.OAMSearch ∧
    (renderStep 0
      { mode := PPUMode.HBlank, cycle_counter := 0, mode3_extra_cycles := 0,
        lx := 0, window_counter := 0, tall_sprites := false } (lineMem 144) 289).2.1.get LY =
      145 := by
  refine ⟨by decide, by decide⟩

/-- C3 amended: one complete frame from LY = 0 back to LY = 0 takes
exactly 96,213 cycles (177 scanlines of 541 cycles for LY = 0…176, then a
single 456-cycle VBLANK period), not 70,224, and raises exactly one VBLANK
interrupt — at the end of the VBLANK period (the counted `true` result of
`renderStep`, which coincides with the `Interrupt::VBlank.trigger` call);
LY is zeroed on VBLANK entry. -/
theorem frame_run_96213 :
    renderRun 0 frameSchedule (lineStart 0) (lineMem 0) 0 = (lineStart 0, frameEndMem, 1) ∧
    frameSchedule.sum = 96213 ∧ (96213 : Int) ≠ 70224 := by
  refine ⟨?_, ?_, by norm_num⟩
  · have h177 : linesSched 177 = linesSched 176 ++ [80, 172, 289] := rfl
    rw [frameSchedule, h177, List.append_assoc, renderRun_append]
    rw [show (lineStart 0 : PpuState) =
      { mode := PPUMode.OAMSearch, cycle_counter := 0, mode3_extra_cycles := 0,
        lx := 0, window_counter := 0, tall_sprites := false } from rfl]
    rw [lines_run 176 0 0 (by norm_num)]
    dsimp only
    show renderRun 0 ([80, 172, 289] ++ [456]) _ _ 0 = _
    rw [renderRun_append]
    have hline : renderRun 0 [80, 172, 289]
        { mode := PPUMode.OAMSearch, cycle_counter := 0, mode3_extra_cycles := 0,
          lx := 0, window_counter := 0, tall_sprites := false } (lineMem (0 + 176)) 0 =
        ({ mode := PPUMode.VBlank, cycle_counter := 0, mode3_extra_cycles := 0,
           lx := 0, window_counter := 0, tall_sprites := false }, lineMem 0, 0) := by
      unfold renderRun
      rw [show (0 + 176 : Nat) = 176 from by norm_num, renderStep_oam 0 176 0 false (by omega)]
      unfold renderRun
      rw [renderStep_pt0 176 0 (by omega)]
      unfold renderRun
      rw [renderStep_hb176 0]
      unfold renderRun
      dsimp only
      simp only [Bool.false_eq_true, if_false, Nat.add_zero]
    rw [hline]
    dsimp only
    unfold renderRun
    rw [renderStep_vblank 0]
    unfold renderRun
    dsimp only
    norm_num
  · rw [frameSchedule, List.sum_append, linesSched_sum]
    norm_num

/-- C1 counterexample: at the reset state with a NOP at PC, `execute`
returns 4 while the canonical timing table's machine-cycle count for NOP is
1 — the returned count is the T-cycle count (4 × the machine-cycle count),
not the machine-cycle count itself. -/
theorem execute_cycles_cex :
    execCycles cpuInit memZero = some 4 ∧
    canonicalMCycles (memZero.get cpuInit.pc) (memZero.get (cpuInit.pc + 1))
      (condTaken (memZero.get cpuInit.pc) cpuInit.flags) = 1 ∧
    (4 : Nat) ≠ 1 := by
  exact ⟨by decide, by decide, by decide⟩

/-- C1 amended: for every CPU state (with PC and SP in range and
byte-valued opcode bytes) and every supported opcode, one call to
`Cpu::execute` applies the instruction and returns a strictly positive
cycle count equal to FOUR TIMES the canonical opcode timing table's
machine-cycle count for that instruction (that is, the count in T-cycles),
including the extra machine cycle for `[HL]`-sourced operands and for taken
conditional branches. -/
theorem execute_cycles_match_table (cpu : Cpu) (mem : Mmu) (op op2 : Nat)
    (hop : mem.get cpu.pc = op) (hop2 : mem.get (cpu.pc + 1) = op2)
    (hb1 : op < 256) (hb2 : op2 < 256) (hsup : Supported op)
    (hpc : cpu.pc + 2 ≤ 0xFFFF) (hsp : cpu.sp ≤ 0xFFFE) :
    execCycles cpu mem = some (canonicalMCycles op op2 (condTaken op cpu.flags) * 4) ∧
    0 < canonicalMCycles op op2 (condTaken op cpu.flags) * 4 := by
  obtain ⟨regs, ⟨z, n, hf, cf⟩, pc, sp, im, imd, ha, st, cc⟩ := cpu
  simp only [execCycles, execute, executeCore, execute_cb, hop, hop2]
  interval_cases op <;>
    first
      | exact (hsup (by decide)).elim
      | exact ⟨rfl, Nat.zero_lt_succ _⟩
      | (cases z <;> exact ⟨rfl, Nat.zero_lt_succ _⟩)
      | (cases cf <;> exact ⟨rfl, Nat.zero_lt_succ _⟩)
      | (interval_cases op2 <;> exact ⟨rfl, Nat.zero_lt_succ _⟩)

/-- Witness for `execute_cycles_match_table` at the reset state with a NOP
at PC. -/
theorem execute_cycles_match_table_w :
    execCycles cpuInit memZero =
      some (canonicalMCycles 0 0 (condTaken 0 cpuInit.flags) * 4) ∧
    0 < canonicalMCycles 0 0 (condTaken 0 cpuInit.flags) * 4 :=
  execute_cycles_match_table cpuInit memZero 0 0 (by decide) (by decide) (by decide)
    (by decide) (by decide) (by decide) (by decide)

end Gumball
